import Mathlib

/-!
Shallow embedding of the Racoon NOS control-plane core (Rust) in Lean 4.

Source layout (crate → Lean section):
 - racoon-common/src/types.rs   : MacAddress, VlanId, SaiOid
 - racoon-common/src/error.rs   : RacoonError
 - racoon-database/src/schema.rs: DbError, key formatters
 - racoon-db-client/src/lib.rs  : DbClient get/set/del/keys over logical DBs
 - racoon-sai/src/status.rs     : SaiStatus and to_result
 - racoon-sai/src/vlan.rs       : VlanApi.create_vlan / remove_vlan
 - racoon-orchd/src/vlan_orch.rs: VlanOrch (configuration orchestrator)
 - racoon-syncd/src/vlan_sync.rs: VlanSync (hardware synchronizer)

Databases are modelled as association lists from string keys to typed
records (serde serialization of a record is modelled separately as a
deterministic function to the JSON byte string).  The vendor SAI library
is modelled as an oracle supplying the status and out-parameters of each
dispatch-table call; each operation returns, besides its result and the
updated state, the list of vendor calls it performed, so that frame
properties ("no vendor call is made") are expressible.
-/

/-- Hex digit value of a character, mirroring the digit parsing done by
Rust u8::from_str_radix(_, 16) via char::to_digit(16), which subtracts the
code of the range base: decimal digits and letters a-f / A-F. -/
def hexDigitVal (c : Char) : Option Nat :=
  if 48 ≤ c.toNat ∧ c.toNat ≤ 57 then some (c.toNat - 48)
  else if 97 ≤ c.toNat ∧ c.toNat ≤ 102 then some (c.toNat - 87)
  else if 65 ≤ c.toNat ∧ c.toNat ≤ 70 then some (c.toNat - 55)
  else none

/-- Lowercase hex digit character for a value below 16, mirroring the
digit emission of Rust's LowerHex formatting (0-9 from the digit block,
10-15 from the lowercase letter block; values 16 and above never occur). -/
def hexDigitChar (n : Nat) : Char :=
  if n < 10 then Char.ofNat (48 + n)
  else if n < 16 then Char.ofNat (87 + n)
  else '*'

/-- Lowercase hex rendering of a natural number, as Rust format!("{:x}", n)
on a u64: most-significant digit first, no leading zeros, "0" for 0. -/
def natToHex (n : Nat) : String := String.mk (Nat.toDigits 16 n)

/-- Decimal digit value of a character (Rust u16::from_str via
from_str_radix(_, 10) and char::to_digit(10)). -/
def decDigitVal (c : Char) : Option Nat :=
  if 48 ≤ c.toNat ∧ c.toNat ≤ 57 then some (c.toNat - 48) else none

/-- Digit loop of u16::from_str_radix(_, 10): consume decimal digits,
failing on a non-digit and on overflow past the u16 range (checked mul/add
against 2^16). -/
def parseDigitsU16Aux : List Char → Nat → Option Nat
  | [], acc => some acc
  | c :: cs, acc =>
    match decDigitVal c with
    | none => none
    | some d =>
      if 10 * acc + d < 65536 then parseDigitsU16Aux cs (10 * acc + d) else none

/-- Embedding of str::parse::<u16>() (u16::from_str_radix(s, 10)): an
optional leading ASCII plus sign followed by one or more decimal digits;
empty digit strings and out-of-range values fail.  For an unsigned target
a minus sign is not treated as a sign and fails as an invalid digit. -/
def parseU16 (s : List Char) : Option Nat :=
  match s with
  | [] => none
  | '+' :: rest => match rest with
    | [] => none
    | _ => parseDigitsU16Aux rest 0
  | _ => parseDigitsU16Aux s 0

/-- List-level prefix stripping: some remainder when the first argument is
a prefix of the second. -/
def stripPreList : List Char → List Char → Option (List Char)
  | [], s => some s
  | _ :: _, [] => none
  | p :: ps, c :: cs => if p = c then stripPreList ps cs else none

/-- Embedding of str::strip_prefix on strings. -/
def strStripPre (s pre : String) : Option String :=
  (stripPreList pre.data s.data).map String.mk

/-- Embedding of the strip_prefix(..).unwrap_or(name) idiom used when a
VLAN name such as "Vlan100" is reduced to its numeric part. -/
def stripPreOr (s pre : String) : String :=
  match strStripPre s pre with
  | some r => r
  | none => s

/-- Boolean prefix test (str::starts_with / the glob patterns
"VLAN_TABLE:*" and "VLAN|Vlan*" reduced to their literal prefix). -/
def strHasPre (s pre : String) : Bool :=
  (stripPreList pre.data s.data).isSome

/-- VLAN ID newtype from racoon-common/src/types.rs (struct VlanId(u16)). -/
structure VlanId where
  val : Nat
deriving DecidableEq, Repr

/-- Smart constructor VlanId::new: accepts ids with (1..=4094).contains(&id). -/
def VlanId.new (id : Nat) : Option VlanId :=
  if 1 ≤ id ∧ id ≤ 4094 then some ⟨id⟩ else none

/-- Accessor VlanId::get. -/
def VlanId.get (v : VlanId) : Nat := v.val

/-- Uniform error enum RacoonError from racoon-common/src/error.rs.
Foreign payloads (io::Error, serde_json::Error, toml::de::Error) are
modelled by their display strings. -/
inductive RacoonError where
  | Sai (msg : String)
  | Database (msg : String)
  | Config (msg : String)
  | PortNotFound (name : String)
  | VlanExists (id : Nat)
  | VlanNotFound (id : Nat)
  | InvalidVlanId (id : Nat)
  | FdbNotFound (key : String)
  | LagNotFound (name : String)
  | InvalidMacAddress (s : String)
  | DependencyNotSatisfied (msg : String)
  | OidNotFound (msg : String)
  | InvalidAttribute (msg : String)
  | LibraryLoad (msg : String)
  | Io (msg : String)
  | Serialization (msg : String)
  | TomlParse (msg : String)
  | Internal (msg : String)
deriving DecidableEq, Repr

/-- Store error taxonomy DbError from racoon-database/src/schema.rs. -/
inductive DbError where
  | Connection (msg : String)
  | Serialization (msg : String)
  | NotFound (key : String)
  | InvalidFormat (msg : String)
  | Operation (msg : String)
deriving DecidableEq, Repr

/-- Logical database identifiers (racoon-db-client/src/lib.rs enum
Database, mirrored by racoon-database/src/schema.rs). -/
inductive Database where
  | Config
  | Appl
  | Asic
  | State
  | Counters
deriving DecidableEq, Repr

/-- Valkey database number of each logical DB (the enum discriminants). -/
def Database.id : Database → Nat
  | .Config => 4
  | .Appl => 0
  | .Asic => 1
  | .State => 6
  | .Counters => 2

/-!  Key-value store model.  One logical DB keyspace is an association
list from flat string keys to a typed record (serde round-trips a record
through its JSON representation, so for present keys a typed store is
observationally the serialized store; serialization itself is modelled
below by serializeVlanEntry). -/

/-- One logical keyspace. -/
abbrev Db (α : Type) : Type := List (String × α)

/-- Raw lookup in a keyspace (the store's view of GET). -/
def dbLookup {α : Type} (d : Db α) (k : String) : Option α :=
  match d with
  | [] => none
  | p :: rest => if p.1 = k then some p.2 else dbLookup rest k

/-- SET: overwrite on conflict (redis SET semantics). -/
def dbSet {α : Type} (d : Db α) (k : String) (v : α) : Db α :=
  (k, v) :: dbFilterOut d k
where
  /-- Drop any binding for the key. -/
  dbFilterOut (d : Db α) (k : String) : Db α :=
    match d with
    | [] => []
    | p :: rest => if p.1 = k then dbFilterOut rest k else p :: dbFilterOut rest k

/-- DEL: remove a key; succeeds whether or not it was present. -/
def dbDel {α : Type} (d : Db α) (k : String) : Db α :=
  dbSet.dbFilterOut d k

/-- Display message of the redis driver error produced when GET of an
absent key returns nil and the nil reply fails conversion to String
(redis-rs FromRedisValue); DbClient::get maps it through
RacoonError::Database(e.to_string()).  The literal driver text is
abbreviated; only the enclosing variant matters here. -/
def redisNilTypeError : String := "Response was of incompatible type"

/-- Embedding of DbClient::get (racoon-db-client/src/lib.rs): read the key
and deserialize.  A present key yields its (typed) record; an absent key
makes the driver-level conversion fail and the error is wrapped in the
generic RacoonError::Database variant. -/
def DbClient.get {α : Type} (d : Db α) (k : String) : Except RacoonError α :=
  match dbLookup d k with
  | some v => Except.ok v
  | none => Except.error (RacoonError.Database redisNilTypeError)

/-- Embedding of DbClient::keys for the glob patterns the reconcilers use
("VLAN_TABLE:*", "VLAN|Vlan*" stripped to "VLAN|"): all stored keys whose
prefix matches, in store order. -/
def DbClient.keysWithPre {α : Type} (d : Db α) (pre : String) : List String :=
  (d.map Prod.fst).filter (fun k => strHasPre k pre)

/-!  SAI status codes (racoon-sai/src/status.rs).  The numeric constants
come from the vendor saistatus.h header; the bindings module is generated
by build.rs from those headers and is not part of src/, so the constants
are transcribed from the SAI header values (SUCCESS = 0, the others
negative and pairwise distinct). -/

/-- Wrapper SaiStatus(sai_status_t), an i32 status code. -/
structure SaiStatus where
  code : Int
deriving DecidableEq, Repr

/-- SAI_STATUS_SUCCESS. -/
def SaiStatus.SUCCESS : SaiStatus := ⟨0⟩

/-- SAI_STATUS_FAILURE. -/
def SaiStatus.FAILURE : SaiStatus := ⟨-1⟩

/-- SAI_STATUS_NOT_SUPPORTED. -/
def SaiStatus.NOT_SUPPORTED : SaiStatus := ⟨-2⟩

/-- SAI_STATUS_NO_MEMORY. -/
def SaiStatus.NO_MEMORY : SaiStatus := ⟨-3⟩

/-- SAI_STATUS_INSUFFICIENT_RESOURCES. -/
def SaiStatus.INSUFFICIENT_RESOURCES : SaiStatus := ⟨-4⟩

/-- SAI_STATUS_INVALID_PARAMETER. -/
def SaiStatus.INVALID_PARAMETER : SaiStatus := ⟨-5⟩

/-- SAI_STATUS_ITEM_ALREADY_EXISTS. -/
def SaiStatus.ITEM_ALREADY_EXISTS : SaiStatus := ⟨-6⟩

/-- SAI_STATUS_ITEM_NOT_FOUND. -/
def SaiStatus.ITEM_NOT_FOUND : SaiStatus := ⟨-7⟩

/-- SAI_STATUS_TABLE_FULL. -/
def SaiStatus.TABLE_FULL : SaiStatus := ⟨-13⟩

/-- SaiStatus::is_success: the code equals SAI_STATUS_SUCCESS. -/
def SaiStatus.is_success (s : SaiStatus) : Bool := s.code = 0

/-- SaiStatus::is_error. -/
def SaiStatus.is_error (s : SaiStatus) : Bool := !s.is_success

/-- Display body of SaiStatus (the cascade in status.rs, restricted to the
constants transcribed above; everything else renders as UNKNOWN_STATUS). -/
def SaiStatus.name (s : SaiStatus) : String :=
  if s.code = 0 then "SUCCESS"
  else if s = SaiStatus.FAILURE then "FAILURE"
  else if s = SaiStatus.NOT_SUPPORTED then "NOT_SUPPORTED"
  else if s = SaiStatus.NO_MEMORY then "NO_MEMORY"
  else if s = SaiStatus.INSUFFICIENT_RESOURCES then "INSUFFICIENT_RESOURCES"
  else if s = SaiStatus.INVALID_PARAMETER then "INVALID_PARAMETER"
  else if s = SaiStatus.ITEM_ALREADY_EXISTS then "ITEM_ALREADY_EXISTS"
  else if s = SaiStatus.ITEM_NOT_FOUND then "ITEM_NOT_FOUND"
  else if s = SaiStatus.TABLE_FULL then "TABLE_FULL"
  else "UNKNOWN_STATUS"

/-- Display of SaiStatus: "SAI_{name} ({code})". -/
def SaiStatus.toDisplay (s : SaiStatus) : String :=
  "SAI_" ++ s.name ++ " (" ++ toString s.code ++ ")"

/-- SaiStatus::to_result: success maps to Ok, every other status becomes
the typed error RacoonError::Sai carrying the display string. -/
def SaiStatus.to_result (s : SaiStatus) : Except RacoonError Unit :=
  if s.is_success then Except.ok () else Except.error (RacoonError.Sai s.toDisplay)

/-- Vendor SAI library behavior (the dispatch-table function pointers
reached through VlanApi in racoon-sai/src/vlan.rs), modelled as a fixed
oracle: create takes the switch OID and the VLAN id attribute and yields
the returned status together with the OID out-parameter; remove takes the
VLAN OID and yields the returned status. -/
structure VendorOracle where
  create : Nat → VlanId → SaiStatus × Nat
  remove : Nat → SaiStatus

/-- Embedding of VlanApi::create_vlan: perform the vendor call, translate
the status with to_result, and return the out-parameter OID on success. -/
def VlanApi.create_vlan (vo : VendorOracle) (switch_id : Nat) (vlan_id : VlanId) :
    Except RacoonError Nat :=
  match (vo.create switch_id vlan_id).fst.to_result with
  | Except.ok _ => Except.ok (vo.create switch_id vlan_id).snd
  | Except.error e => Except.error e

/-- Embedding of VlanApi::remove_vlan. -/
def VlanApi.remove_vlan (vo : VendorOracle) (vlan_oid : Nat) : Except RacoonError Unit :=
  (vo.remove vlan_oid).to_result

/-!  Records of the VLAN pipeline. -/

/-- VLAN configuration record in the Config DB (struct VlanConfig,
duplicated in racoon-orchd/src/vlan_orch.rs and racoon-database). -/
structure VlanConfig where
  vlanid : Nat
  description : Option String
deriving DecidableEq, Repr

/-- VLAN application record in the Appl DB (struct VlanEntry, duplicated
in racoon-orchd/src/vlan_orch.rs and racoon-syncd/src/vlan_sync.rs). -/
structure VlanEntry where
  vlanid : Nat
  description : Option String
deriving DecidableEq, Repr

/-- Asic DB descriptor written by VlanSync::create_vlan: the JSON object
with fields vlanid and oid (the OID as a 0x-prefixed hex string). -/
structure AsicVlan where
  vlanid : Nat
  oid : String
deriving DecidableEq, Repr

/-- Escape of a JSON string body character (serde_json escapes the quote
and the backslash; control-character escapes do not arise for the
descriptions exercised here). -/
def jsonEscapeChar (c : Char) : List Char :=
  if c = '"' then ['\\', '"']
  else if c = '\\' then ['\\', '\\'] else [c]

/-- Escape of a JSON string body. -/
def jsonEscape (s : String) : String :=
  String.mk (s.data.foldr (fun c acc => jsonEscapeChar c ++ acc) [])

/-- Byte string produced by serde_json::to_string for a VlanEntry: field
order is declaration order and the description field is skipped when None
(the skip_serializing_if annotation on the struct). -/
def serializeVlanEntry (e : VlanEntry) : String :=
  "\x7b\"vlanid\":" ++ toString e.vlanid ++
    (match e.description with
     | none => ""
     | some d => ",\"description\":\"" ++ jsonEscape d ++ "\"") ++ "\x7d"

/-!  In-memory maps.  The reconcilers track processed objects in a DashMap
keyed by VlanId; modelled as an association list with insert-replaces
semantics.  All mutations happen in the single reconciler task relevant to
each claim, so the concurrent-map aspect does not surface. -/

/-- Association map used for the DashMap fields. -/
abbrev AssocMap (α : Type) : Type := List (VlanId × α)

/-- DashMap::get. -/
def mapLookup {α : Type} (m : AssocMap α) (k : VlanId) : Option α :=
  match m with
  | [] => none
  | p :: rest => if p.1 = k then some p.2 else mapLookup rest k

/-- DashMap::contains_key. -/
def mapContains {α : Type} (m : AssocMap α) (k : VlanId) : Bool :=
  (mapLookup m k).isSome

/-- Binding removal used by insert and remove. -/
def mapErase {α : Type} (m : AssocMap α) (k : VlanId) : AssocMap α :=
  match m with
  | [] => []
  | p :: rest => if p.1 = k then mapErase rest k else p :: mapErase rest k

/-- DashMap::insert (replaces any existing binding). -/
def mapInsert {α : Type} (m : AssocMap α) (k : VlanId) (v : α) : AssocMap α :=
  (k, v) :: mapErase m k

/-- DashMap::remove. -/
def mapRemove {α : Type} (m : AssocMap α) (k : VlanId) : AssocMap α :=
  mapErase m k

/-!  Shared key formatters (racoon-database/src/schema.rs, mod keys). -/

namespace keys

/-- keys::vlan — "Vlan{id}". -/
def vlan (vlan_id : VlanId) : String := "Vlan" ++ toString vlan_id.get

/-- keys::vlan_member — "Vlan{id}|{port}". -/
def vlan_member (vlan_id : VlanId) (port : String) : String :=
  "Vlan" ++ toString vlan_id.get ++ "|" ++ port

/-- keys::fdb — "Vlan{id}:{mac}". -/
def fdb (vlan_id : VlanId) (mac : String) : String :=
  "Vlan" ++ toString vlan_id.get ++ ":" ++ mac

/-- keys::asic_state — format!("{}:{}", object_type, oid): the object type
token, a colon, and the OID in decimal. -/
def asic_state (object_type : String) (oid : Nat) : String :=
  object_type ++ ":" ++ toString oid

end keys

/-!  MAC address parsing and formatting (racoon-common/src/types.rs).
Strings are handled at the character-list level; String.data mediates. -/

/-- Separator test for the replace([':', '-', '.'], "") call in
MacAddress::from_str. -/
def macIsSep (c : Char) : Bool := c = ':' ∨ c = '-' ∨ c = '.'

/-- Removal of separator characters (str::replace with the empty string
deletes every occurrence, wherever it appears). -/
def macStripSeps (s : List Char) : List Char :=
  s.filter (fun c => !macIsSep c)

/-- Embedding of u8::from_str_radix(chunk, 16) on a two-character chunk:
an optional leading ASCII plus sign followed by hex digits.  A chunk
"+d" therefore parses to the single digit value; "-d" fails because the
minus sign is not a sign for an unsigned target. -/
def fromStrRadix16Pair (c1 c2 : Char) : Option Nat :=
  if c1 = '+' then hexDigitVal c2
  else
    match hexDigitVal c1, hexDigitVal c2 with
    | some a, some b => some (16 * a + b)
    | _, _ => none

/-- Embedding of MacAddress::from_str: delete separators, require exactly
12 remaining characters, then parse the six two-character chunks.  The
result is the 6-byte value as a list; errors carry the source's literal
messages. -/
def MacAddress.from_str (s : List Char) : Except String (List Nat) :=
  match macStripSeps s with
  | [a1, a2, b1, b2, c1, c2, d1, d2, e1, e2, f1, f2] =>
    match fromStrRadix16Pair a1 a2, fromStrRadix16Pair b1 b2, fromStrRadix16Pair c1 c2,
          fromStrRadix16Pair d1 d2, fromStrRadix16Pair e1 e2, fromStrRadix16Pair f1 f2 with
    | some x1, some x2, some x3, some x4, some x5, some x6 =>
      Except.ok [x1, x2, x3, x4, x5, x6]
    | _, _, _, _, _, _ => Except.error "Invalid hex digit in MAC address"
  | _ => Except.error "MAC address must be 12 hex digits"

/-- The two zero-padded lowercase hex digits of one byte ({:02x} for a
value below 256). -/
def hexPairChars (b : Nat) : List Char :=
  [hexDigitChar (b / 16), hexDigitChar (b % 16)]

/-- Embedding of the Display impl for MacAddress: the six bytes as
zero-padded lowercase hex pairs joined by colons. -/
def MacAddress.display (b : List Nat) : List Char :=
  match b with
  | [x1, x2, x3, x4, x5, x6] =>
    hexPairChars x1 ++ ':' :: hexPairChars x2 ++ ':' :: hexPairChars x3 ++
      ':' :: hexPairChars x4 ++ ':' :: hexPairChars x5 ++ ':' :: hexPairChars x6
  | _ => []

/-- Lowercasing of one ASCII character (spec-side normalization). -/
def toLowerChar (c : Char) : Char :=
  if 65 ≤ c.toNat ∧ c.toNat ≤ 90 then Char.ofNat (c.toNat + 32) else c

/-- Regrouping of a digit string into colon-separated pairs (spec-side
normalization). -/
def groupPairs : List Char → List Char
  | c1 :: c2 :: rest =>
    match rest with
    | [] => [c1, c2]
    | _ :: _ => c1 :: c2 :: ':' :: groupPairs rest
  | other => other

/-- Modelled from the spec: the "input normalized to lowercase colon form"
against which format∘parse is compared — separators deleted, characters
lowercased, digits regrouped into colon-separated pairs.  This is the
spec's wording, not code of the repository; it exists to state the
refinement in claim C7. -/
def macNormalize (s : List Char) : List Char :=
  groupPairs ((macStripSeps s).map toLowerChar)

/-!  Configuration orchestrator VlanOrch (racoon-orchd/src/vlan_orch.rs).
Each operation returns its result together with the updated shared state
and the notifications published on the VLAN_TABLE channel. -/

/-- Notification payload published on a channel: the JSON object
with operation, table, key and optional data fields. -/
structure Notification where
  channel : String
  operation : String
  table : String
  key : String
  data : Option VlanEntry
deriving DecidableEq, Repr

deriving instance DecidableEq for Except

/-- Outcome of one VlanOrch per-key operation. -/
structure OrchOut where
  res : Except RacoonError Unit
  appl : Db VlanEntry
  vlans : AssocMap VlanEntry
  pubs : List Notification
deriving DecidableEq, Repr

/-- Embedding of VlanOrch::process_vlan_config: read the VlanConfig at
"VLAN|{name}" from the Config DB, validate the id through VlanId::new,
write the projected VlanEntry at "VLAN_TABLE:{name}" in the Appl DB,
insert it into the projection map, and publish the SET notification on
the VLAN_TABLE channel. -/
def VlanOrch.process_vlan_config (config : Db VlanConfig) (appl : Db VlanEntry)
    (vlans : AssocMap VlanEntry) (vlan_name : String) : OrchOut :=
  match DbClient.get config ("VLAN|" ++ vlan_name) with
  | Except.error e => ⟨Except.error e, appl, vlans, []⟩
  | Except.ok cfg =>
    match VlanId.new cfg.vlanid with
    | none => ⟨Except.error (RacoonError.InvalidVlanId cfg.vlanid), appl, vlans, []⟩
    | some vlan_id =>
      let vlan_entry : VlanEntry := ⟨cfg.vlanid, cfg.description⟩
      let appl2 := dbSet appl ("VLAN_TABLE:" ++ vlan_name) vlan_entry
      let vlans2 := mapInsert vlans vlan_id vlan_entry
      let notif : Notification := ⟨"VLAN_TABLE", "SET", "VLAN_TABLE", vlan_name, some vlan_entry⟩
      ⟨Except.ok (), appl2, vlans2, [notif]⟩

/-- Embedding of VlanOrch::delete_vlan: parse the numeric id out of the
name ("Vlan100" → 100, via strip_prefix("Vlan").unwrap_or and
str::parse::<u16>), validate it, then delete "VLAN_TABLE:{name}" from the
Appl DB, drop the map entry and publish the DEL notification. -/
def VlanOrch.delete_vlan (appl : Db VlanEntry) (vlans : AssocMap VlanEntry)
    (vlan_name : String) : OrchOut :=
  match parseU16 (stripPreOr vlan_name "Vlan").data with
  | none => ⟨Except.error (RacoonError.InvalidVlanId 0), appl, vlans, []⟩
  | some n =>
    match VlanId.new n with
    | none => ⟨Except.error (RacoonError.InvalidVlanId n), appl, vlans, []⟩
    | some vlan_id =>
      let appl2 := dbDel appl ("VLAN_TABLE:" ++ vlan_name)
      let vlans2 := mapRemove vlans vlan_id
      let notif : Notification := ⟨"VLAN_TABLE", "DEL", "VLAN_TABLE", vlan_name, none⟩
      ⟨Except.ok (), appl2, vlans2, [notif]⟩

/-- Embedding of VlanOrch::handle_notification after JSON extraction of
the operation and key fields: SET/CREATE and DEL/DELETE keys carrying the
"VLAN|" prefix are processed; per-record errors are logged and dropped;
anything else is ignored. -/
def VlanOrch.handle_notification (config : Db VlanConfig) (appl : Db VlanEntry)
    (vlans : AssocMap VlanEntry) (operation key : String) : OrchOut :=
  if operation = "SET" ∨ operation = "CREATE" then
    match strStripPre key "VLAN|" with
    | some vlan_name => VlanOrch.process_vlan_config config appl vlans vlan_name
    | none => ⟨Except.ok (), appl, vlans, []⟩
  else if operation = "DEL" ∨ operation = "DELETE" then
    match strStripPre key "VLAN|" with
    | some vlan_name => VlanOrch.delete_vlan appl vlans vlan_name
    | none => ⟨Except.ok (), appl, vlans, []⟩
  else ⟨Except.ok (), appl, vlans, []⟩

/-!  Hardware synchronizer VlanSync (racoon-syncd/src/vlan_sync.rs).
The tracked DashMap holds VlanState values; operations additionally
report the vendor calls performed and the Asic keys written, so that
no-call and no-write frame claims are expressible. -/

/-- Per-VLAN tracking state (struct VlanState). -/
structure VlanState where
  vlan_id : VlanId
  sai_oid : Nat
deriving DecidableEq, Repr

/-- Outcome of one VlanSync per-key operation. -/
structure SyncOut where
  res : Except RacoonError Unit
  vlans : AssocMap VlanState
  asic : Db AsicVlan
  createCalls : List (Nat × VlanId)
  removeCalls : List Nat
  asicSets : List String
deriving DecidableEq, Repr

/-- The Asic DB key written and deleted by VlanSync:
format!("ASIC_STATE:SAI_OBJECT_TYPE_VLAN:0x{:x}", oid). -/
def asicVlanKey (oid : Nat) : String :=
  "ASIC_STATE:SAI_OBJECT_TYPE_VLAN:0x" ++ natToHex oid

/-- Embedding of VlanSync::create_vlan: read the VlanEntry at
"VLAN_TABLE:{name}" from the Appl DB, validate the id, return Ok early
when the tracking map already holds the id, otherwise call the vendor
create through VlanApi; on success record the state and write the Asic
descriptor. -/
def VlanSync.create_vlan (appl : Db VlanEntry) (asic : Db AsicVlan)
    (vlans : AssocMap VlanState) (vo : VendorOracle) (switch_id : Nat)
    (vlan_name : String) : SyncOut :=
  match DbClient.get appl ("VLAN_TABLE:" ++ vlan_name) with
  | Except.error e => ⟨Except.error e, vlans, asic, [], [], []⟩
  | Except.ok entry =>
    match VlanId.new entry.vlanid with
    | none => ⟨Except.error (RacoonError.InvalidVlanId entry.vlanid), vlans, asic, [], [], []⟩
    | some vlan_id =>
      if mapContains vlans vlan_id then ⟨Except.ok (), vlans, asic, [], [], []⟩
      else
        match VlanApi.create_vlan vo switch_id vlan_id with
        | Except.error e => ⟨Except.error e, vlans, asic, [(switch_id, vlan_id)], [], []⟩
        | Except.ok vlan_oid =>
          let state : VlanState := ⟨vlan_id, vlan_oid⟩
          let vlans2 := mapInsert vlans vlan_id state
          let asic_value : AsicVlan := ⟨entry.vlanid, "0x" ++ natToHex vlan_oid⟩
          ⟨Except.ok (), vlans2, dbSet asic (asicVlanKey vlan_oid) asic_value,
            [(switch_id, vlan_id)], [], [asicVlanKey vlan_oid]⟩

/-- Embedding of VlanSync::delete_vlan: parse the id out of the name,
return Ok with no effect when it is not tracked, otherwise call the
vendor remove; on success drop the map entry and delete the Asic key. -/
def VlanSync.delete_vlan (asic : Db AsicVlan) (vlans : AssocMap VlanState)
    (vo : VendorOracle) (vlan_name : String) : SyncOut :=
  match parseU16 (stripPreOr vlan_name "Vlan").data with
  | none => ⟨Except.error (RacoonError.InvalidVlanId 0), vlans, asic, [], [], []⟩
  | some n =>
    match VlanId.new n with
    | none => ⟨Except.error (RacoonError.InvalidVlanId n), vlans, asic, [], [], []⟩
    | some vlan_id =>
      match mapLookup vlans vlan_id with
      | none => ⟨Except.ok (), vlans, asic, [], [], []⟩
      | some state =>
        match VlanApi.remove_vlan vo state.sai_oid with
        | Except.error e => ⟨Except.error e, vlans, asic, [], [state.sai_oid], []⟩
        | Except.ok _ =>
          ⟨Except.ok (), mapRemove vlans vlan_id, dbDel asic (asicVlanKey state.sai_oid),
            [], [state.sai_oid], []⟩

/-- Embedding of VlanSync::handle_notification after JSON extraction:
SET/CREATE runs create_vlan on the key, DEL/DELETE runs delete_vlan,
anything else is ignored; per-record errors are logged and dropped. -/
def VlanSync.handle_notification (appl : Db VlanEntry) (asic : Db AsicVlan)
    (vlans : AssocMap VlanState) (vo : VendorOracle) (switch_id : Nat)
    (operation key : String) : SyncOut :=
  if operation = "SET" ∨ operation = "CREATE" then
    VlanSync.create_vlan appl asic vlans vo switch_id key
  else if operation = "DEL" ∨ operation = "DELETE" then
    VlanSync.delete_vlan asic vlans vo key
  else ⟨Except.ok (), vlans, asic, [], [], []⟩

/-- Outcome of VlanSync::sync_vlans / start. -/
structure SyncStartOut where
  vlans : AssocMap VlanState
  asic : Db AsicVlan
  createCalls : List (Nat × VlanId)
  removeCalls : List Nat
  asicSets : List String
deriving DecidableEq, Repr

/-- Iteration of VlanSync::sync_vlans over the enumerated keys: each key
still carrying the "VLAN_TABLE:" prefix is stripped and handed to
create_vlan; per-key errors are logged and skipped.  create_vlan never
touches the Appl DB, which therefore stays fixed across the loop. -/
def VlanSync.syncLoop (appl : Db VlanEntry) (vo : VendorOracle) (switch_id : Nat) :
    List String → AssocMap VlanState → Db AsicVlan → List (Nat × VlanId) → List String →
    SyncStartOut
  | [], vlans, asic, calls, sets => ⟨vlans, asic, calls, [], sets⟩
  | key :: rest, vlans, asic, calls, sets =>
    match strStripPre key "VLAN_TABLE:" with
    | none => VlanSync.syncLoop appl vo switch_id rest vlans asic calls sets
    | some vlan_name =>
      let out := VlanSync.create_vlan appl asic vlans vo switch_id vlan_name
      VlanSync.syncLoop appl vo switch_id rest out.vlans out.asic
        (calls ++ out.createCalls) (sets ++ out.asicSets)

/-- Embedding of VlanSync::sync_vlans: enumerate keys matching
"VLAN_TABLE:*" in the Appl DB and reconcile each one forward. -/
def VlanSync.sync_vlans (appl : Db VlanEntry) (asic : Db AsicVlan)
    (vlans : AssocMap VlanState) (vo : VendorOracle) (switch_id : Nat) : SyncStartOut :=
  VlanSync.syncLoop appl vo switch_id (DbClient.keysWithPre appl "VLAN_TABLE:") vlans asic [] []

/-- Embedding of VlanSync::start: the whole bulk reconcile is the
sync_vlans pass (nothing else runs before notification processing). -/
def VlanSync.start (appl : Db VlanEntry) (asic : Db AsicVlan)
    (vlans : AssocMap VlanState) (vo : VendorOracle) (switch_id : Nat) : SyncStartOut :=
  VlanSync.sync_vlans appl asic vlans vo switch_id

/-!  The two-stage pipeline (C3 then C4) for one notification: the
orchestrator reacts to the CONFIG_DB:VLAN notification, and the
synchronizer, subscribed to the VLAN_TABLE channel, consumes each
notification the orchestrator published, in order. -/

/-- Full pipeline state: the three DBs and both in-memory maps. -/
structure PipeState where
  config : Db VlanConfig
  appl : Db VlanEntry
  asic : Db AsicVlan
  orchVlans : AssocMap VlanEntry
  syncVlans : AssocMap VlanState
deriving DecidableEq, Repr

/-- Externally visible effects of one pipeline application. -/
structure PipeEff where
  pubs : List Notification
  createCalls : List (Nat × VlanId)
  removeCalls : List Nat
  asicSets : List String
deriving DecidableEq, Repr

/-- The synchronizer's subscribe loop over the notifications published in
one orchestrator step (serial, in publish order). -/
def syncNotifLoop (appl : Db VlanEntry) (vo : VendorOracle) (switch_id : Nat) :
    List Notification → AssocMap VlanState → Db AsicVlan →
    AssocMap VlanState × Db AsicVlan × List (Nat × VlanId) × List Nat × List String
  | [], vlans, asic => (vlans, asic, [], [], [])
  | n :: rest, vlans, asic =>
    let out := VlanSync.handle_notification appl asic vlans vo switch_id n.operation n.key
    let tail := syncNotifLoop appl vo switch_id rest out.vlans out.asic
    (tail.1, tail.2.1, out.createCalls ++ tail.2.2.1, out.removeCalls ++ tail.2.2.2.1,
      out.asicSets ++ tail.2.2.2.2)

/-- One notification pushed through the whole pipeline: C3 handles the
(operation, key) event against the Config DB; C4 then handles each
published downstream notification. -/
def pipelineNotify (st : PipeState) (vo : VendorOracle) (switch_id : Nat)
    (operation key : String) : PipeState × PipeEff :=
  let o := VlanOrch.handle_notification st.config st.appl st.orchVlans operation key
  let s := syncNotifLoop o.appl vo switch_id o.pubs st.syncVlans st.asic
  (⟨st.config, o.appl, s.2.1, o.vlans, s.1⟩,
   ⟨o.pubs, s.2.2.1, s.2.2.2.1, s.2.2.2.2⟩)


/-!  Store and map lemmas shared by the claim proofs. -/

/-- Lookup after dropping a key: the dropped key reads none, others are
unchanged. -/
theorem dbLookup_filterOut {α : Type} (d : Db α) (k k2 : String) :
    dbLookup (dbSet.dbFilterOut d k) k2 = if k2 = k then none else dbLookup d k2 := by
  induction d with
  | nil => simp only [dbSet.dbFilterOut, dbLookup]; split <;> rfl
  | cons p rest ih =>
    simp only [dbSet.dbFilterOut]
    by_cases h1 : p.1 = k
    · rw [if_pos h1, ih]
      by_cases h2 : k2 = k
      · rw [if_pos h2, if_pos h2]
      · have hp : ¬p.1 = k2 := by rw [h1]; exact fun hc => h2 hc.symm
        rw [if_neg h2, if_neg h2]
        simp only [dbLookup, if_neg hp]
    · rw [if_neg h1]
      simp only [dbLookup, ih]
      by_cases h3 : p.1 = k2
      · have h2 : ¬k2 = k := fun hc => h1 (h3.trans hc)
        rw [if_pos h3, if_neg h2, if_pos h3]
      · rw [if_neg h3]
        by_cases h2 : k2 = k
        · rw [if_pos h2, if_pos h2]
        · rw [if_neg h2, if_neg h2, if_neg h3]

/-- Lookup after SET: the written key reads the value, others unchanged. -/
theorem dbLookup_dbSet {α : Type} (d : Db α) (k k2 : String) (v : α) :
    dbLookup (dbSet d k v) k2 = if k = k2 then some v else dbLookup d k2 := by
  by_cases h : k = k2 <;>
    simp_all [dbSet, dbLookup, dbLookup_filterOut]
  intro h2
  exact absurd h2.symm h

/-- Dropping a key twice is dropping it once. -/
theorem filterOut_filterOut {α : Type} (d : Db α) (k : String) :
    dbSet.dbFilterOut (dbSet.dbFilterOut d k) k = dbSet.dbFilterOut d k := by
  induction d with
  | nil => rfl
  | cons p rest ih =>
    by_cases h : p.1 = k <;> simp_all [dbSet.dbFilterOut]

/-- SET is idempotent at the byte level: writing the same record at the
same key twice leaves the keyspace the first write produced. -/
theorem dbSet_dbSet {α : Type} (d : Db α) (k : String) (v : α) :
    dbSet (dbSet d k v) k v = dbSet d k v := by
  show (k, v) :: dbSet.dbFilterOut ((k, v) :: dbSet.dbFilterOut d k) k = _
  simp [dbSet.dbFilterOut, filterOut_filterOut, dbSet]

/-- Presence of a key survives any SET. -/
theorem dbLookup_dbSet_isSome {α : Type} (d : Db α) (k k2 : String) (v : α)
    (h : (dbLookup d k2).isSome) : (dbLookup (dbSet d k v) k2).isSome := by
  rw [dbLookup_dbSet]
  by_cases hk : k = k2 <;> simp [hk, h]

/-- Lookup after erasing a map key. -/
theorem mapLookup_mapErase {α : Type} (m : AssocMap α) (k k2 : VlanId) :
    mapLookup (mapErase m k) k2 = if k2 = k then none else mapLookup m k2 := by
  induction m with
  | nil => simp only [mapErase, mapLookup]; split <;> rfl
  | cons p rest ih =>
    simp only [mapErase]
    by_cases h1 : p.1 = k
    · rw [if_pos h1, ih]
      by_cases h2 : k2 = k
      · rw [if_pos h2, if_pos h2]
      · have hp : ¬p.1 = k2 := by rw [h1]; exact fun hc => h2 hc.symm
        rw [if_neg h2, if_neg h2]
        simp only [mapLookup, if_neg hp]
    · rw [if_neg h1]
      simp only [mapLookup, ih]
      by_cases h3 : p.1 = k2
      · have h2 : ¬k2 = k := fun hc => h1 (h3.trans hc)
        rw [if_pos h3, if_neg h2, if_pos h3]
      · rw [if_neg h3]
        by_cases h2 : k2 = k
        · rw [if_pos h2, if_pos h2]
        · rw [if_neg h2, if_neg h2, if_neg h3]

/-- Erasing a map key twice is erasing it once. -/
theorem mapErase_mapErase {α : Type} (m : AssocMap α) (k : VlanId) :
    mapErase (mapErase m k) k = mapErase m k := by
  induction m with
  | nil => rfl
  | cons p rest ih => by_cases h : p.1 = k <;> simp_all [mapErase]

/-- Inserting the same binding twice leaves the map of the first insert. -/
theorem mapInsert_mapInsert {α : Type} (m : AssocMap α) (k : VlanId) (v : α) :
    mapInsert (mapInsert m k v) k v = mapInsert m k v := by
  simp [mapInsert, mapErase, mapErase_mapErase]

/-- Lookup after insert. -/
theorem mapLookup_mapInsert {α : Type} (m : AssocMap α) (k k2 : VlanId) (v : α) :
    mapLookup (mapInsert m k v) k2 = if k = k2 then some v else mapLookup m k2 := by
  by_cases h : k = k2 <;>
    simp_all [mapInsert, mapLookup, mapLookup_mapErase]
  intro h2
  exact absurd h2.symm h

/-- An inserted key is contained. -/
theorem mapContains_mapInsert_self {α : Type} (m : AssocMap α) (k : VlanId) (v : α) :
    mapContains (mapInsert m k v) k = true := by
  simp [mapContains, mapLookup_mapInsert]

/-!  Claim C4 — DbClient::get on a missing key.  The claim says the error
is the NotFound variant of the store-error taxonomy; DbClient::get in
fact wraps the driver failure in the generic RacoonError::Database
variant, and the DbError taxonomy of racoon-database (which does have
NotFound) is never produced by the client. -/

/-- Claim C4, counterexample: reading the absent key "VLAN|Vlan100" from
an empty keyspace yields the generic RacoonError::Database error wrapping
the driver's nil-conversion failure — not a NotFound-classified store
error, refuting the claim at this concrete input. -/
theorem c4_get_missing_counterexample :
    DbClient.get ([] : Db VlanEntry) "VLAN|Vlan100" =
      Except.error (RacoonError.Database redisNilTypeError)
    ∧ (match DbClient.get ([] : Db VlanEntry) "VLAN|Vlan100" with
       | Except.error (RacoonError.Database _) => True
       | _ => False) := by
  exact ⟨rfl, trivial⟩

/-- Claim C4, amended: for every keyspace and key, get of a key that does
not exist fails with the generic RacoonError::Database variant (wrapping
the driver's nil-conversion error); the NotFound variant of the DbError
store taxonomy is not involved. -/
theorem c4_amended_get_missing_database_error {α : Type} (d : Db α) (k : String)
    (h : dbLookup d k = none) :
    DbClient.get d k = Except.error (RacoonError.Database redisNilTypeError) := by
  unfold DbClient.get
  rw [h]

/-- Claim C4 witness: the amended theorem applied to the empty VlanEntry
keyspace at a concrete key. -/
theorem c4_amended_get_missing_database_error_witness :
    DbClient.get ([] : Db VlanEntry) "VLAN_TABLE:Vlan1" =
      Except.error (RacoonError.Database redisNilTypeError) :=
  c4_amended_get_missing_database_error ([] : Db VlanEntry) "VLAN_TABLE:Vlan1" rfl

/-!  Claim C5 — VLAN-id range and orchestrator rejection. -/

/-- Claim C5: VlanId::new returns Some exactly on [1,4094]; and when the
orchestrator processes a SET whose stored VlanConfig has an out-of-range
vlanid, it returns the typed InvalidVlanId error, writes nothing to the
Appl DB, publishes nothing, and leaves the projection map unchanged. -/
theorem c5_vlan_id_range_and_rejection :
    (∀ id : Nat, (VlanId.new id).isSome ↔ (1 ≤ id ∧ id ≤ 4094))
    ∧ (∀ (config : Db VlanConfig) (appl : Db VlanEntry) (vlans : AssocMap VlanEntry)
        (name : String) (cfg : VlanConfig),
        dbLookup config ("VLAN|" ++ name) = some cfg →
        ¬(1 ≤ cfg.vlanid ∧ cfg.vlanid ≤ 4094) →
        VlanOrch.process_vlan_config config appl vlans name =
          ⟨Except.error (RacoonError.InvalidVlanId cfg.vlanid), appl, vlans, []⟩) := by
  constructor
  · intro id
    unfold VlanId.new
    by_cases h : 1 ≤ id ∧ id ≤ 4094 <;> simp [h]
  · intro config appl vlans name cfg hget hrange
    simp only [VlanOrch.process_vlan_config, DbClient.get, hget, VlanId.new, if_neg hrange]

/-- Claim C5 witness: vlanid 0 (below range) at key "VLAN|Vlan0" is
rejected and nothing is written or published, via the claim theorem. -/
theorem c5_vlan_id_range_and_rejection_witness :
    ((VlanId.new 0).isSome ↔ (1 ≤ 0 ∧ 0 ≤ 4094))
    ∧ VlanOrch.process_vlan_config [("VLAN|Vlan0", (⟨0, none⟩ : VlanConfig))] [] [] "Vlan0" =
        ⟨Except.error (RacoonError.InvalidVlanId 0), [], [], []⟩ :=
  ⟨c5_vlan_id_range_and_rejection.1 0,
   c5_vlan_id_range_and_rejection.2 [("VLAN|Vlan0", ⟨0, none⟩)] [] [] "Vlan0" ⟨0, none⟩
     (by decide) (by decide)⟩

/-!  Claim C9 — synchronizer realize-delete of an untracked id. -/

/-- Claim C9: when the synchronizer's delete is invoked for a valid VLAN
id absent from its realized map, it returns Ok immediately with no vendor
remove call, no Asic change and no map change. -/
theorem c9_delete_untracked_noop
    (asic : Db AsicVlan) (vlans : AssocMap VlanState) (vo : VendorOracle)
    (name : String) (n : Nat) (id : VlanId)
    (hp : parseU16 (stripPreOr name "Vlan").data = some n)
    (hid : VlanId.new n = some id)
    (habsent : mapLookup vlans id = none) :
    VlanSync.delete_vlan asic vlans vo name = ⟨Except.ok (), vlans, asic, [], [], []⟩ := by
  simp only [VlanSync.delete_vlan, hp, hid, habsent]

/-- Claim C9 witness: deleting "Vlan100" with an empty tracking map leaves
the stored ASIC_STATE key for that VLAN untouched and calls no vendor
entry point. -/
theorem c9_delete_untracked_noop_witness :
    VlanSync.delete_vlan
        [("ASIC_STATE:SAI_OBJECT_TYPE_VLAN:0x2a", (⟨100, "0x2a"⟩ : AsicVlan))] []
        ⟨fun _ _ => (SaiStatus.SUCCESS, 1), fun _ => SaiStatus.SUCCESS⟩ "Vlan100" =
      ⟨Except.ok (), [],
        [("ASIC_STATE:SAI_OBJECT_TYPE_VLAN:0x2a", (⟨100, "0x2a"⟩ : AsicVlan))], [], [], []⟩ :=
  c9_delete_untracked_noop _ _ _ "Vlan100" 100 ⟨100⟩ (by decide) (by decide) rfl

/-!  Claim C10 — orchestrator delete with an unparsable or out-of-range
name. -/

/-- Claim C10: a DEL handled by the orchestrator whose key name, after
stripping "Vlan", does not parse as a u16 in [1,4094] returns the typed
InvalidVlanId error before touching state: the Appl DB, the projection
map and the published-notification list are untouched. -/
theorem c10_orch_delete_invalid_name_no_effect
    (appl : Db VlanEntry) (vlans : AssocMap VlanEntry) (name : String)
    (hbad : ∀ n, parseU16 (stripPreOr name "Vlan").data = some n → ¬(1 ≤ n ∧ n ≤ 4094)) :
    ∃ m, VlanOrch.delete_vlan appl vlans name =
      ⟨Except.error (RacoonError.InvalidVlanId m), appl, vlans, []⟩ := by
  unfold VlanOrch.delete_vlan
  cases hp : parseU16 (stripPreOr name "Vlan").data with
  | none => exact ⟨0, rfl⟩
  | some n =>
    refine ⟨n, ?_⟩
    simp only [VlanId.new, if_neg (hbad n hp)]

/-- Claim C10 witness: "Vlan5000" parses to the out-of-range 5000 and the
delete handler rejects it with no state change, via the claim theorem. -/
theorem c10_orch_delete_invalid_name_no_effect_witness :
    ∃ m, VlanOrch.delete_vlan [("VLAN_TABLE:Vlan5000", (⟨5000, none⟩ : VlanEntry))] [] "Vlan5000" =
      ⟨Except.error (RacoonError.InvalidVlanId m),
        [("VLAN_TABLE:Vlan5000", (⟨5000, none⟩ : VlanEntry))], [], []⟩ :=
  c10_orch_delete_invalid_name_no_effect _ _ "Vlan5000"
    (fun n hn => by
      have h5 : parseU16 (stripPreOr "Vlan5000" "Vlan").data = some 5000 := by decide
      rw [h5] at hn
      injection hn with h2
      subst h2
      decide)

/-!  Claim C2 — vendor ITEM_ALREADY_EXISTS on realize-create.  The map
check precedes the vendor call, so a vendor call only ever happens when
the map does not contain the id; the claimed equivalence holds, with its
success side vacuous, and the status is surfaced as RacoonError::Sai. -/

/-- Claim C2: during a realize-create whose stored entry is valid, if the
vendor create returns ITEM_ALREADY_EXISTS then the operation succeeds
exactly when the realized map already contains the VLAN id, and when the
map does not contain it the status is surfaced as the typed
RacoonError::Sai error. -/
theorem c2_create_already_exists_iff_tracked
    (appl : Db VlanEntry) (asic : Db AsicVlan) (vlans : AssocMap VlanState)
    (vo : VendorOracle) (sw : Nat) (name : String) (entry : VlanEntry) (id : VlanId)
    (hget : dbLookup appl ("VLAN_TABLE:" ++ name) = some entry)
    (hid : VlanId.new entry.vlanid = some id)
    (hvendor : (vo.create sw id).fst = SaiStatus.ITEM_ALREADY_EXISTS) :
    ((VlanSync.create_vlan appl asic vlans vo sw name).res = Except.ok ()
        ↔ mapContains vlans id = true)
    ∧ (mapContains vlans id = false →
        (VlanSync.create_vlan appl asic vlans vo sw name).res =
          Except.error (RacoonError.Sai SaiStatus.ITEM_ALREADY_EXISTS.toDisplay)) := by
  have hcv : VlanApi.create_vlan vo sw id =
      Except.error (RacoonError.Sai SaiStatus.ITEM_ALREADY_EXISTS.toDisplay) := by
    simp only [VlanApi.create_vlan, hvendor]
    rfl
  cases hc : mapContains vlans id with
  | true =>
    have hres : VlanSync.create_vlan appl asic vlans vo sw name =
        ⟨Except.ok (), vlans, asic, [], [], []⟩ := by
      simp only [VlanSync.create_vlan, DbClient.get, hget, hid, hc]
      rfl
    rw [hres]
    exact ⟨Iff.intro (fun _ => rfl) (fun _ => rfl), fun hfalse => Bool.noConfusion hfalse⟩
  | false =>
    have hres : VlanSync.create_vlan appl asic vlans vo sw name =
        ⟨Except.error (RacoonError.Sai SaiStatus.ITEM_ALREADY_EXISTS.toDisplay),
          vlans, asic, [(sw, id)], [], []⟩ := by
      simp only [VlanSync.create_vlan, DbClient.get, hget, hid, hc, hcv]
      rfl
    rw [hres]
    exact ⟨Iff.intro (fun h => Except.noConfusion h) (fun h => Bool.noConfusion h),
      fun _ => rfl⟩

/-- Claim C2 witness: entry for VLAN 100 present in Appl, empty realized
map, vendor replying ITEM_ALREADY_EXISTS — the operation fails with the
typed Sai error, via the claim theorem. -/
theorem c2_create_already_exists_iff_tracked_witness :
    ((VlanSync.create_vlan [("VLAN_TABLE:Vlan100", (⟨100, none⟩ : VlanEntry))] [] []
        ⟨fun _ _ => (SaiStatus.ITEM_ALREADY_EXISTS, 7), fun _ => SaiStatus.SUCCESS⟩ 9
        "Vlan100").res = Except.ok ()
      ↔ mapContains ([] : AssocMap VlanState) ⟨100⟩ = true)
    ∧ (mapContains ([] : AssocMap VlanState) ⟨100⟩ = false →
        (VlanSync.create_vlan [("VLAN_TABLE:Vlan100", (⟨100, none⟩ : VlanEntry))] [] []
          ⟨fun _ _ => (SaiStatus.ITEM_ALREADY_EXISTS, 7), fun _ => SaiStatus.SUCCESS⟩ 9
          "Vlan100").res =
            Except.error (RacoonError.Sai SaiStatus.ITEM_ALREADY_EXISTS.toDisplay)) :=
  c2_create_already_exists_iff_tracked _ _ _ _ 9 "Vlan100" ⟨100, none⟩ ⟨100⟩
    (by decide) (by decide) rfl

/-!  Claim C3 — vendor ITEM_NOT_FOUND on realize-delete.  The claim says
the deletion is treated as success (map entry removed, Asic key deleted);
SaiStatus::to_result in fact treats every non-SUCCESS status as an error,
so the error is surfaced and neither the map nor the Asic DB changes. -/

/-- Claim C3, counterexample: VLAN 100 is tracked with OID 42 and the
vendor remove replies ITEM_NOT_FOUND; delete_vlan surfaces the typed Sai
error, keeps the map entry and leaves the ASIC_STATE key in place —
refuting the claimed treated-as-success behavior at this concrete
input. -/
theorem c3_remove_not_found_counterexample :
    VlanSync.delete_vlan
        [("ASIC_STATE:SAI_OBJECT_TYPE_VLAN:0x2a", (⟨100, "0x2a"⟩ : AsicVlan))]
        [(⟨100⟩, ⟨⟨100⟩, 42⟩)]
        ⟨fun _ _ => (SaiStatus.SUCCESS, 1), fun _ => SaiStatus.ITEM_NOT_FOUND⟩ "Vlan100" =
      ⟨Except.error (RacoonError.Sai "SAI_ITEM_NOT_FOUND (-7)"),
        [(⟨100⟩, ⟨⟨100⟩, 42⟩)],
        [("ASIC_STATE:SAI_OBJECT_TYPE_VLAN:0x2a", (⟨100, "0x2a"⟩ : AsicVlan))],
        [], [42], []⟩ := by
  decide

/-- Claim C3, amended: a vendor ITEM_NOT_FOUND on remove is surfaced to
the caller as the typed RacoonError::Sai error (to_result treats every
non-SUCCESS status as an error); the map entry is kept and the ASIC_STATE
key is not deleted. -/
theorem c3_amended_remove_not_found_error
    (asic : Db AsicVlan) (vlans : AssocMap VlanState) (vo : VendorOracle)
    (name : String) (n : Nat) (id : VlanId) (st : VlanState)
    (hp : parseU16 (stripPreOr name "Vlan").data = some n)
    (hid : VlanId.new n = some id)
    (htracked : mapLookup vlans id = some st)
    (hrm : vo.remove st.sai_oid = SaiStatus.ITEM_NOT_FOUND) :
    VlanSync.delete_vlan asic vlans vo name =
      ⟨Except.error (RacoonError.Sai SaiStatus.ITEM_NOT_FOUND.toDisplay),
        vlans, asic, [], [st.sai_oid], []⟩ := by
  have hrv : VlanApi.remove_vlan vo st.sai_oid =
      Except.error (RacoonError.Sai SaiStatus.ITEM_NOT_FOUND.toDisplay) := by
    simp only [VlanApi.remove_vlan, hrm]
    rfl
  simp only [VlanSync.delete_vlan, hp, hid, htracked, hrv]

/-- Claim C3 witness: the amended theorem applied to VLAN 200 tracked
with OID 7 and a vendor replying ITEM_NOT_FOUND. -/
theorem c3_amended_remove_not_found_error_witness :
    VlanSync.delete_vlan [] [(⟨200⟩, ⟨⟨200⟩, 7⟩)]
        ⟨fun _ _ => (SaiStatus.SUCCESS, 1), fun _ => SaiStatus.ITEM_NOT_FOUND⟩ "Vlan200" =
      ⟨Except.error (RacoonError.Sai SaiStatus.ITEM_NOT_FOUND.toDisplay),
        [(⟨200⟩, ⟨⟨200⟩, 7⟩)], [], [], [7], []⟩ :=
  c3_amended_remove_not_found_error _ _ _ "Vlan200" 200 ⟨200⟩ ⟨⟨200⟩, 7⟩
    (by decide) (by decide) rfl rfl

/-!  Claim C1 — what start() actually does.  The claimed Asic-DB scan, map
reconstruction and garbage collection do not exist: start() only walks
VLAN_TABLE:* in the Appl DB and realize-creates forward. -/

/-- One realize-create never deletes an Asic key: any key present before
is present after (create only ever adds or overwrites its own key). -/
theorem create_vlan_asic_isSome
    (appl : Db VlanEntry) (asic : Db AsicVlan) (vlans : AssocMap VlanState)
    (vo : VendorOracle) (sw : Nat) (name k : String)
    (h : (dbLookup asic k).isSome) :
    (dbLookup (VlanSync.create_vlan appl asic vlans vo sw name).asic k).isSome := by
  unfold VlanSync.create_vlan
  split
  · exact h
  · split
    · exact h
    · split
      · exact h
      · split
        · exact h
        · exact dbLookup_dbSet_isSome _ _ _ _ h

/-- The realize-create loop of sync_vlans preserves every Asic key. -/
theorem syncLoop_asic_isSome
    (appl : Db VlanEntry) (vo : VendorOracle) (sw : Nat) :
    ∀ (ks : List String) (vlans : AssocMap VlanState) (asic : Db AsicVlan)
      (calls : List (Nat × VlanId)) (sets : List String) (k : String),
      (dbLookup asic k).isSome →
      (dbLookup (VlanSync.syncLoop appl vo sw ks vlans asic calls sets).asic k).isSome := by
  intro ks
  induction ks with
  | nil => intro vlans asic calls sets k h; exact h
  | cons key rest ih =>
    intro vlans asic calls sets k h
    unfold VlanSync.syncLoop
    cases hstrip : strStripPre key "VLAN_TABLE:" with
    | none => exact ih vlans asic calls sets k h
    | some vlan_name =>
      exact ih _ _ _ _ k (create_vlan_asic_isSome appl asic vlans vo sw vlan_name k h)

/-- The realize-create loop never performs a vendor remove. -/
theorem syncLoop_no_removes
    (appl : Db VlanEntry) (vo : VendorOracle) (sw : Nat) :
    ∀ (ks : List String) (vlans : AssocMap VlanState) (asic : Db AsicVlan)
      (calls : List (Nat × VlanId)) (sets : List String),
      (VlanSync.syncLoop appl vo sw ks vlans asic calls sets).removeCalls = [] := by
  intro ks
  induction ks with
  | nil => intro vlans asic calls sets; rfl
  | cons key rest ih =>
    intro vlans asic calls sets
    unfold VlanSync.syncLoop
    cases hstrip : strStripPre key "VLAN_TABLE:" with
    | none => exact ih vlans asic calls sets
    | some vlan_name => exact ih _ _ _ _

/-- Claim C1, counterexample: with an empty Appl DB, an Asic DB holding
one ASIC_STATE VLAN descriptor and an empty tracking map, start neither
reconstructs the map from the Asic scan (the claimed behavior would
yield a map containing VLAN 42) nor garbage-collects the Asic-only entry
(the claimed behavior would remove it and call the vendor remove): the
map stays empty, the Asic DB is untouched and no vendor call happens. -/
theorem c1_start_no_reconstruction_counterexample :
    VlanSync.start []
        [("ASIC_STATE:SAI_OBJECT_TYPE_VLAN:0x2a", (⟨42, "0x2a"⟩ : AsicVlan))] []
        ⟨fun _ _ => (SaiStatus.SUCCESS, 1), fun _ => SaiStatus.SUCCESS⟩ 9 =
      ⟨[], [("ASIC_STATE:SAI_OBJECT_TYPE_VLAN:0x2a", (⟨42, "0x2a"⟩ : AsicVlan))],
        [], [], []⟩ := by
  decide

/-- Claim C1, amended: on start() the synchronizer only enumerates
VLAN_TABLE:* in the Appl DB and reconciles those entries forward through
realize-create; it performs no vendor remove, and every ASIC_STATE key
present in the Asic DB before start() is still present afterwards
(entries present in Asic but absent in Appl are not garbage-collected,
and the map is not rebuilt from the Asic DB). -/
theorem c1_amended_start_forward_only
    (appl : Db VlanEntry) (asic : Db AsicVlan) (vlans : AssocMap VlanState)
    (vo : VendorOracle) (sw : Nat) (k : String)
    (h : (dbLookup asic k).isSome) :
    (VlanSync.start appl asic vlans vo sw).removeCalls = []
    ∧ (dbLookup (VlanSync.start appl asic vlans vo sw).asic k).isSome := by
  unfold VlanSync.start VlanSync.sync_vlans
  exact ⟨syncLoop_no_removes appl vo sw _ vlans asic [] [],
    syncLoop_asic_isSome appl vo sw _ vlans asic [] [] k h⟩

/-- Claim C1 witness: the amended theorem applied to a start() run over a
nonempty Appl DB (VLAN 100) with a stale Asic-only descriptor for OID
0x2a, which survives. -/
theorem c1_amended_start_forward_only_witness :
    (VlanSync.start [("VLAN_TABLE:Vlan100", (⟨100, none⟩ : VlanEntry))]
        [("ASIC_STATE:SAI_OBJECT_TYPE_VLAN:0x2a", (⟨42, "0x2a"⟩ : AsicVlan))] []
        ⟨fun _ _ => (SaiStatus.SUCCESS, 1), fun _ => SaiStatus.SUCCESS⟩ 9).removeCalls = []
    ∧ (dbLookup (VlanSync.start [("VLAN_TABLE:Vlan100", (⟨100, none⟩ : VlanEntry))]
        [("ASIC_STATE:SAI_OBJECT_TYPE_VLAN:0x2a", (⟨42, "0x2a"⟩ : AsicVlan))] []
        ⟨fun _ _ => (SaiStatus.SUCCESS, 1), fun _ => SaiStatus.SUCCESS⟩ 9).asic
        "ASIC_STATE:SAI_OBJECT_TYPE_VLAN:0x2a").isSome :=
  c1_amended_start_forward_only _ _ _ _ 9 "ASIC_STATE:SAI_OBJECT_TYPE_VLAN:0x2a" (by decide)

/-!  Claim C8 — ASIC-state key formats.  The keys the synchronizer writes
have the documented ASIC_STATE:{token}:0x{hex} shape; the shared
formatter keys::asic_state does not. -/

/-- Digits emitted for base 16 are lowercase hex characters. -/
theorem digitChar_mem_hex :
    ∀ m : Fin 16, Nat.digitChar m.val ∈ "0123456789abcdef".data := by
  decide

/-- Every character produced by the base-16 digit loop is a lowercase hex
digit, provided the accumulator already satisfies that. -/
theorem toDigitsCore_mem_hex :
    ∀ (fuel n : Nat) (acc : List Char),
      (∀ c ∈ acc, c ∈ "0123456789abcdef".data) →
      ∀ c ∈ Nat.toDigitsCore 16 fuel n acc, c ∈ "0123456789abcdef".data := by
  intro fuel
  induction fuel with
  | zero => intro n acc hacc c hc; exact hacc c hc
  | succ f ih =>
    intro n acc hacc c hc
    have hd : Nat.digitChar (n % 16) ∈ "0123456789abcdef".data :=
      digitChar_mem_hex ⟨n % 16, Nat.mod_lt n (by norm_num)⟩
    simp only [Nat.toDigitsCore] at hc
    by_cases h0 : n / 16 = 0
    · rw [if_pos h0] at hc
      rcases List.mem_cons.mp hc with h | h
      · rw [h]; exact hd
      · exact hacc c h
    · rw [if_neg h0] at hc
      refine ih (n / 16) (Nat.digitChar (n % 16) :: acc) ?_ c hc
      intro c2 hc2
      rcases List.mem_cons.mp hc2 with h | h
      · rw [h]; exact hd
      · exact hacc c2 h

/-- The {:x} rendering of any number consists of lowercase hex digits. -/
theorem natToHex_mem_hex (n : Nat) :
    ∀ c ∈ (natToHex n).data, c ∈ "0123456789abcdef".data := by
  intro c hc
  exact toDigitsCore_mem_hex (n + 1) n [] (by intro c2 hc2; cases hc2) c hc

/-- Claim C8, counterexample: the shared key formatter keys::asic_state
renders "SAI_OBJECT_TYPE_VLAN:255" — the OID in decimal, with no
ASIC_STATE table prefix and no 0x marker — which differs from the
claimed ASIC_STATE:{token}:0x{hex} shape that the synchronizer itself
uses, refuting the claim for the shared formatter. -/
theorem c8_shared_formatter_counterexample :
    keys.asic_state "SAI_OBJECT_TYPE_VLAN" 255 = "SAI_OBJECT_TYPE_VLAN:255"
    ∧ strHasPre (keys.asic_state "SAI_OBJECT_TYPE_VLAN" 255) "ASIC_STATE:" = false
    ∧ keys.asic_state "SAI_OBJECT_TYPE_VLAN" 255 ≠ asicVlanKey 255 := by
  decide

/-- Claim C8, amended: every Asic key the synchronizer writes during a
realize-create is ASIC_STATE:SAI_OBJECT_TYPE_VLAN:0x followed by the
lowercase-hex OID; the shared formatter keys::asic_state instead renders
{object-type}:{decimal-oid} (see the counterexample). -/
theorem c8_amended_sync_asic_key_format
    (appl : Db VlanEntry) (asic : Db AsicVlan) (vlans : AssocMap VlanState)
    (vo : VendorOracle) (sw : Nat) (name : String) (k : String)
    (hk : k ∈ (VlanSync.create_vlan appl asic vlans vo sw name).asicSets) :
    ∃ oid, k = "ASIC_STATE:SAI_OBJECT_TYPE_VLAN:0x" ++ natToHex oid
      ∧ ∀ c ∈ (natToHex oid).data, c ∈ "0123456789abcdef".data := by
  unfold VlanSync.create_vlan at hk
  split at hk
  · exact absurd hk (List.not_mem_nil k)
  · split at hk
    · exact absurd hk (List.not_mem_nil k)
    · split at hk
      · exact absurd hk (List.not_mem_nil k)
      · split at hk
        · exact absurd hk (List.not_mem_nil k)
        · rename_i vlan_oid hcv
          have hk2 : k = asicVlanKey vlan_oid := List.mem_singleton.mp hk
          exact ⟨vlan_oid, hk2, natToHex_mem_hex vlan_oid⟩

/-- Claim C8 witness: a successful realize-create with vendor OID 255
writes exactly the key ASIC_STATE:SAI_OBJECT_TYPE_VLAN:0xff, via the
claim theorem. -/
theorem c8_amended_sync_asic_key_format_witness :
    ∃ oid, "ASIC_STATE:SAI_OBJECT_TYPE_VLAN:0xff" =
        "ASIC_STATE:SAI_OBJECT_TYPE_VLAN:0x" ++ natToHex oid
      ∧ ∀ c ∈ (natToHex oid).data, c ∈ "0123456789abcdef".data :=
  c8_amended_sync_asic_key_format [("VLAN_TABLE:Vlan100", (⟨100, none⟩ : VlanEntry))] [] []
    ⟨fun _ _ => (SaiStatus.SUCCESS, 255), fun _ => SaiStatus.SUCCESS⟩ 9 "Vlan100"
    "ASIC_STATE:SAI_OBJECT_TYPE_VLAN:0xff" (by decide)

/-!  Claim C7 — MAC parse/format round-trips. -/

/-- A parsed hex digit is below 16 and lowercasing its character gives
the canonical digit character. -/
theorem hexVal_toLower (c : Char) (a : Nat) (h : hexDigitVal c = some a) :
    a < 16 ∧ toLowerChar c = hexDigitChar a := by
  unfold hexDigitVal at h
  by_cases h1 : 48 ≤ c.toNat ∧ c.toNat ≤ 57
  · rw [if_pos h1] at h
    injection h with h2
    subst h2
    refine ⟨by omega, ?_⟩
    unfold toLowerChar hexDigitChar
    rw [if_neg (by omega), if_pos (by omega)]
    have : 48 + (c.toNat - 48) = c.toNat := by omega
    rw [this, Char.ofNat_toNat]
  · rw [if_neg h1] at h
    by_cases h2 : 97 ≤ c.toNat ∧ c.toNat ≤ 102
    · rw [if_pos h2] at h
      injection h with h3
      subst h3
      refine ⟨by omega, ?_⟩
      unfold toLowerChar hexDigitChar
      rw [if_neg (by omega), if_neg (by omega), if_pos (by omega)]
      have : 87 + (c.toNat - 87) = c.toNat := by omega
      rw [this, Char.ofNat_toNat]
    · rw [if_neg h2] at h
      by_cases h3 : 65 ≤ c.toNat ∧ c.toNat ≤ 70
      · rw [if_pos h3] at h
        injection h with h4
        subst h4
        refine ⟨by omega, ?_⟩
        unfold toLowerChar hexDigitChar
        rw [if_pos (by omega), if_neg (by omega), if_pos (by omega)]
        have : 87 + (c.toNat - 55) = c.toNat + 32 := by omega
        rw [this]
      · rw [if_neg h3] at h
        exact Option.noConfusion h

/-- Parsing the canonical digit characters recovers the digit. -/
theorem hexDigitVal_hexDigitChar :
    ∀ m : Fin 16, hexDigitVal (hexDigitChar m.val) = some m.val := by
  decide

/-- Canonical digit characters are not the sign character. -/
theorem hexDigitChar_ne_plus : ∀ m : Fin 16, hexDigitChar m.val ≠ '+' := by
  decide

/-- Canonical digit characters are not separators. -/
theorem macIsSep_hexDigitChar : ∀ m : Fin 16, macIsSep (hexDigitChar m.val) = false := by
  decide

/-- Chunk-level round-trip: the two canonical digits of a byte parse back
to the byte. -/
theorem fromStrRadix16Pair_hex (b : Nat) (hb : b < 256) :
    fromStrRadix16Pair (hexDigitChar (b / 16)) (hexDigitChar (b % 16)) = some b := by
  have hdiv : b / 16 < 16 := by omega
  have hmod : b % 16 < 16 := Nat.mod_lt b (by norm_num)
  unfold fromStrRadix16Pair
  rw [if_neg (hexDigitChar_ne_plus ⟨b / 16, hdiv⟩)]
  rw [hexDigitVal_hexDigitChar ⟨b / 16, hdiv⟩, hexDigitVal_hexDigitChar ⟨b % 16, hmod⟩]
  show some (16 * (b / 16) + b % 16) = some b
  rw [Nat.div_add_mod]

/-- Separator removal on a formatted MAC keeps exactly the twelve digit
characters. -/
theorem macStripSeps_display (b1 b2 b3 b4 b5 b6 : Nat)
    (h1 : b1 < 256) (h2 : b2 < 256) (h3 : b3 < 256)
    (h4 : b4 < 256) (h5 : b5 < 256) (h6 : b6 < 256) :
    macStripSeps (MacAddress.display [b1, b2, b3, b4, b5, b6]) =
      [hexDigitChar (b1 / 16), hexDigitChar (b1 % 16),
       hexDigitChar (b2 / 16), hexDigitChar (b2 % 16),
       hexDigitChar (b3 / 16), hexDigitChar (b3 % 16),
       hexDigitChar (b4 / 16), hexDigitChar (b4 % 16),
       hexDigitChar (b5 / 16), hexDigitChar (b5 % 16),
       hexDigitChar (b6 / 16), hexDigitChar (b6 % 16)] := by
  have f1a : macIsSep (hexDigitChar (b1 / 16)) = false := macIsSep_hexDigitChar ⟨b1 / 16, by omega⟩
  have f1b : macIsSep (hexDigitChar (b1 % 16)) = false := macIsSep_hexDigitChar ⟨b1 % 16, by omega⟩
  have f2a : macIsSep (hexDigitChar (b2 / 16)) = false := macIsSep_hexDigitChar ⟨b2 / 16, by omega⟩
  have f2b : macIsSep (hexDigitChar (b2 % 16)) = false := macIsSep_hexDigitChar ⟨b2 % 16, by omega⟩
  have f3a : macIsSep (hexDigitChar (b3 / 16)) = false := macIsSep_hexDigitChar ⟨b3 / 16, by omega⟩
  have f3b : macIsSep (hexDigitChar (b3 % 16)) = false := macIsSep_hexDigitChar ⟨b3 % 16, by omega⟩
  have f4a : macIsSep (hexDigitChar (b4 / 16)) = false := macIsSep_hexDigitChar ⟨b4 / 16, by omega⟩
  have f4b : macIsSep (hexDigitChar (b4 % 16)) = false := macIsSep_hexDigitChar ⟨b4 % 16, by omega⟩
  have f5a : macIsSep (hexDigitChar (b5 / 16)) = false := macIsSep_hexDigitChar ⟨b5 / 16, by omega⟩
  have f5b : macIsSep (hexDigitChar (b5 % 16)) = false := macIsSep_hexDigitChar ⟨b5 % 16, by omega⟩
  have f6a : macIsSep (hexDigitChar (b6 / 16)) = false := macIsSep_hexDigitChar ⟨b6 / 16, by omega⟩
  have f6b : macIsSep (hexDigitChar (b6 % 16)) = false := macIsSep_hexDigitChar ⟨b6 % 16, by omega⟩
  have fc : macIsSep ':' = true := by decide
  simp [MacAddress.display, hexPairChars, macStripSeps, List.filter_append, List.filter,
    f1a, f1b, f2a, f2b, f3a, f3b, f4a, f4b, f5a, f5b, f6a, f6b, fc]

/-- Chunk-level normalization: a chunk of two hex digits (no sign) that
parses to v displays back as the lowercased chunk. -/
theorem pair_display_eq (c1 c2 : Char) (v : Nat)
    (h : fromStrRadix16Pair c1 c2 = some v)
    (h1 : (hexDigitVal c1).isSome) :
    hexPairChars v = [toLowerChar c1, toLowerChar c2] := by
  unfold fromStrRadix16Pair at h
  by_cases hp : c1 = '+'
  · rw [hp] at h1
    exact absurd h1 (by decide)
  · rw [if_neg hp] at h
    cases ha : hexDigitVal c1 with
    | none => rw [ha] at h; exact Option.noConfusion h
    | some a =>
      cases hb : hexDigitVal c2 with
      | none => rw [ha, hb] at h; exact Option.noConfusion h
      | some b =>
        rw [ha, hb] at h
        have hv : 16 * a + b = v := Option.some.inj h
        obtain ⟨halt, hca⟩ := hexVal_toLower c1 a ha
        obtain ⟨hblt, hcb⟩ := hexVal_toLower c2 b hb
        subst hv
        unfold hexPairChars
        have e1 : (16 * a + b) / 16 = a := by omega
        have e2 : (16 * a + b) % 16 = b := by omega
        rw [e1, e2, hca, hcb]

/-- Claim C7, counterexample: "aabbccddee+f" is accepted by the parser
(u8::from_str_radix accepts a leading plus sign inside the final chunk)
and parses to ...:0f, whose display differs from the input normalized to
lowercase colon form, refuting the format∘parse direction of the claim
for this accepted input. -/
theorem c7_plus_sign_counterexample :
    MacAddress.from_str "aabbccddee+f".data = Except.ok [170, 187, 204, 221, 238, 15]
    ∧ MacAddress.display [170, 187, 204, 221, 238, 15] = "aa:bb:cc:dd:ee:0f".data
    ∧ macNormalize "aabbccddee+f".data = "aa:bb:cc:dd:ee:+f".data
    ∧ MacAddress.display [170, 187, 204, 221, 238, 15] ≠ macNormalize "aabbccddee+f".data := by
  decide

/-- Claim C7, amended: parse∘format is the identity on every 6-byte
value; the three example spellings parse to the same value whose display
is aa:bb:cc:dd:ee:ff; and format∘parse yields the input normalized to
lowercase colon form for every accepted input whose remaining characters
are hex digits — the parser additionally accepts a plus sign in place of
a leading pair digit, where the normalization law fails (see the
counterexample). -/
theorem c7_amended_mac_roundtrip :
    (∀ b1 b2 b3 b4 b5 b6 : Nat, b1 < 256 → b2 < 256 → b3 < 256 →
      b4 < 256 → b5 < 256 → b6 < 256 →
      MacAddress.from_str (MacAddress.display [b1, b2, b3, b4, b5, b6]) =
        Except.ok [b1, b2, b3, b4, b5, b6])
    ∧ (MacAddress.from_str "AA-BB-CC-DD-EE-FF".data = Except.ok [170, 187, 204, 221, 238, 255]
      ∧ MacAddress.from_str "aa:bb:cc:dd:ee:ff".data = Except.ok [170, 187, 204, 221, 238, 255]
      ∧ MacAddress.from_str "aabb.ccdd.eeff".data = Except.ok [170, 187, 204, 221, 238, 255]
      ∧ MacAddress.display [170, 187, 204, 221, 238, 255] = "aa:bb:cc:dd:ee:ff".data)
    ∧ (∀ (s : List Char) (bytes : List Nat),
      MacAddress.from_str s = Except.ok bytes →
      (∀ c ∈ macStripSeps s, (hexDigitVal c).isSome) →
      MacAddress.display bytes = macNormalize s) := by
  refine ⟨?_, by decide, ?_⟩
  · intro b1 b2 b3 b4 b5 b6 h1 h2 h3 h4 h5 h6
    simp only [MacAddress.from_str, macStripSeps_display b1 b2 b3 b4 b5 b6 h1 h2 h3 h4 h5 h6,
      fromStrRadix16Pair_hex b1 h1, fromStrRadix16Pair_hex b2 h2, fromStrRadix16Pair_hex b3 h3,
      fromStrRadix16Pair_hex b4 h4, fromStrRadix16Pair_hex b5 h5, fromStrRadix16Pair_hex b6 h6]
  · intro s bytes hparse hhex
    unfold MacAddress.from_str at hparse
    split at hparse
    case _ a1 a2 b1 b2 c1 c2 d1 d2 e1 e2 f1 f2 heq =>
      split at hparse
      case _ x1 x2 x3 x4 x5 x6 hp1 hp2 hp3 hp4 hp5 hp6 =>
        have hb : [x1, x2, x3, x4, x5, x6] = bytes := by injection hparse
        subst hb
        have hmem : ∀ c ∈ [a1, a2, b1, b2, c1, c2, d1, d2, e1, e2, f1, f2],
            (hexDigitVal c).isSome := by
          intro c hc
          exact hhex c (by rw [heq]; exact hc)
        have q1 := pair_display_eq a1 a2 x1 hp1 (hmem a1 (by simp))
        have q2 := pair_display_eq b1 b2 x2 hp2 (hmem b1 (by simp))
        have q3 := pair_display_eq c1 c2 x3 hp3 (hmem c1 (by simp))
        have q4 := pair_display_eq d1 d2 x4 hp4 (hmem d1 (by simp))
        have q5 := pair_display_eq e1 e2 x5 hp5 (hmem e1 (by simp))
        have q6 := pair_display_eq f1 f2 x6 hp6 (hmem f1 (by simp))
        unfold macNormalize
        rw [heq]
        show hexPairChars x1 ++ ':' :: hexPairChars x2 ++ ':' :: hexPairChars x3 ++
            ':' :: hexPairChars x4 ++ ':' :: hexPairChars x5 ++ ':' :: hexPairChars x6 =
          groupPairs (List.map toLowerChar [a1, a2, b1, b2, c1, c2, d1, d2, e1, e2, f1, f2])
        rw [q1, q2, q3, q4, q5, q6]
        simp [groupPairs, List.map]
      case _ => exact Except.noConfusion hparse
    case _ => exact Except.noConfusion hparse

/-- Claim C7 witness: the round-trip conjuncts applied to the byte value
aa:bb:cc:dd:ee:ff and to the canonical input string. -/
theorem c7_amended_mac_roundtrip_witness :
    MacAddress.from_str (MacAddress.display [170, 187, 204, 221, 238, 255]) =
      Except.ok [170, 187, 204, 221, 238, 255]
    ∧ MacAddress.display [170, 187, 204, 221, 238, 255] =
        macNormalize "aa:bb:cc:dd:ee:ff".data :=
  ⟨c7_amended_mac_roundtrip.1 170 187 204 221 238 255
      (by norm_num) (by norm_num) (by norm_num) (by norm_num) (by norm_num) (by norm_num),
    c7_amended_mac_roundtrip.2.2 "aa:bb:cc:dd:ee:ff".data [170, 187, 204, 221, 238, 255]
      (by decide) (by decide)⟩

/-!  Claim C6 — idempotence of a repeated SET through the pipeline.
Equation lemmas for the branches of the orchestrator and synchronizer,
then the pipeline theorem. -/

/-- SET handling when the key does not carry the "VLAN|" prefix: no
effect. -/
theorem orch_handle_set_strip_none (config : Db VlanConfig) (appl : Db VlanEntry)
    (vlans : AssocMap VlanEntry) (key : String)
    (hstrip : strStripPre key "VLAN|" = none) :
    VlanOrch.handle_notification config appl vlans "SET" key =
      ⟨Except.ok (), appl, vlans, []⟩ := by
  simp [VlanOrch.handle_notification, hstrip]

/-- SET handling dispatches to the per-key projection on the stripped
name. -/
theorem orch_handle_set_eq (config : Db VlanConfig) (appl : Db VlanEntry)
    (vlans : AssocMap VlanEntry) (key name : String)
    (hstrip : strStripPre key "VLAN|" = some name) :
    VlanOrch.handle_notification config appl vlans "SET" key =
      VlanOrch.process_vlan_config config appl vlans name := by
  simp [VlanOrch.handle_notification, hstrip]

/-- Projection when the config record is absent: the get error is
surfaced and nothing changes. -/
theorem orch_process_nocfg (config : Db VlanConfig) (appl : Db VlanEntry)
    (vlans : AssocMap VlanEntry) (name : String)
    (hcfg : dbLookup config ("VLAN|" ++ name) = none) :
    VlanOrch.process_vlan_config config appl vlans name =
      ⟨Except.error (RacoonError.Database redisNilTypeError), appl, vlans, []⟩ := by
  simp only [VlanOrch.process_vlan_config, DbClient.get, hcfg]

/-- Projection when the stored vlanid is invalid: typed error and no
change. -/
theorem orch_process_badid (config : Db VlanConfig) (appl : Db VlanEntry)
    (vlans : AssocMap VlanEntry) (name : String) (cfg : VlanConfig)
    (hcfg : dbLookup config ("VLAN|" ++ name) = some cfg)
    (hid : VlanId.new cfg.vlanid = none) :
    VlanOrch.process_vlan_config config appl vlans name =
      ⟨Except.error (RacoonError.InvalidVlanId cfg.vlanid), appl, vlans, []⟩ := by
  simp only [VlanOrch.process_vlan_config, DbClient.get, hcfg, hid]

/-- Projection on a valid config: write the entry, track it, publish. -/
theorem orch_process_ok (config : Db VlanConfig) (appl : Db VlanEntry)
    (vlans : AssocMap VlanEntry) (name : String) (cfg : VlanConfig) (id : VlanId)
    (hcfg : dbLookup config ("VLAN|" ++ name) = some cfg)
    (hid : VlanId.new cfg.vlanid = some id) :
    VlanOrch.process_vlan_config config appl vlans name =
      ⟨Except.ok (),
        dbSet appl ("VLAN_TABLE:" ++ name) ⟨cfg.vlanid, cfg.description⟩,
        mapInsert vlans id ⟨cfg.vlanid, cfg.description⟩,
        [⟨"VLAN_TABLE", "SET", "VLAN_TABLE", name, some ⟨cfg.vlanid, cfg.description⟩⟩]⟩ := by
  simp only [VlanOrch.process_vlan_config, DbClient.get, hcfg, hid]

/-- Realize-create when the id is already tracked: pure no-op. -/
theorem sync_create_tracked (appl : Db VlanEntry) (asic : Db AsicVlan)
    (vlans : AssocMap VlanState) (vo : VendorOracle) (sw : Nat) (name : String)
    (entry : VlanEntry) (id : VlanId)
    (hget : dbLookup appl ("VLAN_TABLE:" ++ name) = some entry)
    (hid : VlanId.new entry.vlanid = some id)
    (hc : mapContains vlans id = true) :
    VlanSync.create_vlan appl asic vlans vo sw name =
      ⟨Except.ok (), vlans, asic, [], [], []⟩ := by
  simp only [VlanSync.create_vlan, DbClient.get, hget, hid, hc]
  rfl

/-- Realize-create when the vendor call fails: the error is surfaced, the
call is recorded, nothing else changes. -/
theorem sync_create_fail (appl : Db VlanEntry) (asic : Db AsicVlan)
    (vlans : AssocMap VlanState) (vo : VendorOracle) (sw : Nat) (name : String)
    (entry : VlanEntry) (id : VlanId)
    (hget : dbLookup appl ("VLAN_TABLE:" ++ name) = some entry)
    (hid : VlanId.new entry.vlanid = some id)
    (hc : mapContains vlans id = false)
    (hfail : (vo.create sw id).fst.is_success = false) :
    VlanSync.create_vlan appl asic vlans vo sw name =
      ⟨Except.error (RacoonError.Sai (vo.create sw id).fst.toDisplay),
        vlans, asic, [(sw, id)], [], []⟩ := by
  have hcv : VlanApi.create_vlan vo sw id =
      Except.error (RacoonError.Sai (vo.create sw id).fst.toDisplay) := by
    simp [VlanApi.create_vlan, SaiStatus.to_result, hfail]
  simp only [VlanSync.create_vlan, DbClient.get, hget, hid, hc, hcv]
  rfl

/-- Realize-create when the vendor call succeeds: track the returned OID
and write the Asic descriptor. -/
theorem sync_create_ok (appl : Db VlanEntry) (asic : Db AsicVlan)
    (vlans : AssocMap VlanState) (vo : VendorOracle) (sw : Nat) (name : String)
    (entry : VlanEntry) (id : VlanId)
    (hget : dbLookup appl ("VLAN_TABLE:" ++ name) = some entry)
    (hid : VlanId.new entry.vlanid = some id)
    (hc : mapContains vlans id = false)
    (hok : (vo.create sw id).fst.is_success = true) :
    VlanSync.create_vlan appl asic vlans vo sw name =
      ⟨Except.ok (),
        mapInsert vlans id ⟨id, (vo.create sw id).snd⟩,
        dbSet asic (asicVlanKey (vo.create sw id).snd)
          ⟨entry.vlanid, "0x" ++ natToHex (vo.create sw id).snd⟩,
        [(sw, id)], [], [asicVlanKey (vo.create sw id).snd]⟩ := by
  have hcv : VlanApi.create_vlan vo sw id = Except.ok (vo.create sw id).snd := by
    simp [VlanApi.create_vlan, SaiStatus.to_result, hok]
  simp only [VlanSync.create_vlan, DbClient.get, hget, hid, hc, hcv]
  rfl

/-- The synchronizer loop over one published SET notification is one
realize-create. -/
theorem syncNotifLoop_one_set (appl : Db VlanEntry) (vo : VendorOracle) (sw : Nat)
    (name : String) (d : Option VlanEntry) (vlans : AssocMap VlanState)
    (asic : Db AsicVlan) :
    syncNotifLoop appl vo sw [⟨"VLAN_TABLE", "SET", "VLAN_TABLE", name, d⟩] vlans asic =
      ((VlanSync.create_vlan appl asic vlans vo sw name).vlans,
       (VlanSync.create_vlan appl asic vlans vo sw name).asic,
       (VlanSync.create_vlan appl asic vlans vo sw name).createCalls,
       (VlanSync.create_vlan appl asic vlans vo sw name).removeCalls,
       (VlanSync.create_vlan appl asic vlans vo sw name).asicSets) := by
  simp [syncNotifLoop, VlanSync.handle_notification]

/-- One full pipeline application of a SET whose config record is present
and valid: the orchestrator projects and publishes, and the synchronizer
runs one realize-create against the just-written Appl DB. -/
theorem pipeline_set_ok_eq (s : PipeState) (vo : VendorOracle) (sw : Nat)
    (key name : String) (cfg : VlanConfig) (id : VlanId)
    (hstrip : strStripPre key "VLAN|" = some name)
    (hcfg : dbLookup s.config ("VLAN|" ++ name) = some cfg)
    (hid : VlanId.new cfg.vlanid = some id) :
    pipelineNotify s vo sw "SET" key =
      (⟨s.config,
        dbSet s.appl ("VLAN_TABLE:" ++ name) ⟨cfg.vlanid, cfg.description⟩,
        (VlanSync.create_vlan (dbSet s.appl ("VLAN_TABLE:" ++ name) ⟨cfg.vlanid, cfg.description⟩)
          s.asic s.syncVlans vo sw name).asic,
        mapInsert s.orchVlans id ⟨cfg.vlanid, cfg.description⟩,
        (VlanSync.create_vlan (dbSet s.appl ("VLAN_TABLE:" ++ name) ⟨cfg.vlanid, cfg.description⟩)
          s.asic s.syncVlans vo sw name).vlans⟩,
       ⟨[⟨"VLAN_TABLE", "SET", "VLAN_TABLE", name, some ⟨cfg.vlanid, cfg.description⟩⟩],
        (VlanSync.create_vlan (dbSet s.appl ("VLAN_TABLE:" ++ name) ⟨cfg.vlanid, cfg.description⟩)
          s.asic s.syncVlans vo sw name).createCalls,
        (VlanSync.create_vlan (dbSet s.appl ("VLAN_TABLE:" ++ name) ⟨cfg.vlanid, cfg.description⟩)
          s.asic s.syncVlans vo sw name).removeCalls,
        (VlanSync.create_vlan (dbSet s.appl ("VLAN_TABLE:" ++ name) ⟨cfg.vlanid, cfg.description⟩)
          s.asic s.syncVlans vo sw name).asicSets⟩) := by
  unfold pipelineNotify
  rw [orch_handle_set_eq _ _ _ _ _ hstrip, orch_process_ok _ _ _ _ _ _ hcfg hid]
  simp only [syncNotifLoop_one_set]

/-- Lookup of the entry the orchestrator just wrote. -/
theorem dbLookup_projected (appl : Db VlanEntry) (k : String) (e : VlanEntry) :
    dbLookup (dbSet appl k e) k = some e := by
  rw [dbLookup_dbSet]
  simp

/-- Claim C6, counterexample: with a deterministic vendor whose create
fails, the first application's realize-create does not populate the map,
so the second application performs a second vendor create call — the
claimed "no second vendor call" does not hold for this execution. -/
theorem c6_second_vendor_call_counterexample :
    (pipelineNotify
        (pipelineNotify ⟨[("VLAN|Vlan100", ⟨100, none⟩)], [], [], [], []⟩
          ⟨fun _ _ => (SaiStatus.FAILURE, 0), fun _ => SaiStatus.SUCCESS⟩ 9
          "SET" "VLAN|Vlan100").1
        ⟨fun _ _ => (SaiStatus.FAILURE, 0), fun _ => SaiStatus.SUCCESS⟩ 9
        "SET" "VLAN|Vlan100").2.createCalls = [(9, ⟨100⟩)] := by
  decide

/-- Claim C6, amended: applying the same SET twice through the pipeline
(with the fixed, deterministic vendor oracle) leaves exactly the state of
the first application — in particular the Appl DB record (hence its
serialized JSON bytes) and the Asic DB contents are those of the single
application.  Moreover, when the vendor create succeeds, the second
application performs no vendor create call and writes no Asic entry,
because the realized map already contains the VLAN id; when the first
vendor create failed, the second application retries it (see the
counterexample), which is where the claim as stated fails. -/
theorem c6_amended_pipeline_set_idempotent (st : PipeState) (vo : VendorOracle)
    (sw : Nat) (key : String) :
    (pipelineNotify (pipelineNotify st vo sw "SET" key).1 vo sw "SET" key).1 =
      (pipelineNotify st vo sw "SET" key).1
    ∧ ((pipelineNotify (pipelineNotify st vo sw "SET" key).1 vo sw "SET" key).1.appl.map
        (fun p => (p.1, serializeVlanEntry p.2)) =
       (pipelineNotify st vo sw "SET" key).1.appl.map
        (fun p => (p.1, serializeVlanEntry p.2)))
    ∧ ((∀ id, (vo.create sw id).fst.is_success = true) →
        (pipelineNotify (pipelineNotify st vo sw "SET" key).1 vo sw "SET" key).2.createCalls = []
        ∧ (pipelineNotify (pipelineNotify st vo sw "SET" key).1 vo sw "SET" key).2.asicSets = []) := by
  cases hstrip : strStripPre key "VLAN|" with
  | none =>
    have hrun : ∀ s : PipeState, pipelineNotify s vo sw "SET" key = (s, ⟨[], [], [], []⟩) := by
      intro s
      unfold pipelineNotify
      rw [orch_handle_set_strip_none s.config s.appl s.orchVlans key hstrip]
      rfl
    have hA : (pipelineNotify (pipelineNotify st vo sw "SET" key).1 vo sw "SET" key).1 =
        (pipelineNotify st vo sw "SET" key).1 := by
      simp only [hrun]
    exact ⟨hA, by rw [hA], fun _ => by simp [hrun]⟩
  | some name =>
    cases hcfg : dbLookup st.config ("VLAN|" ++ name) with
    | none =>
      have hrun : ∀ s : PipeState, s.config = st.config →
          pipelineNotify s vo sw "SET" key = (s, ⟨[], [], [], []⟩) := by
        intro s hsc
        unfold pipelineNotify
        rw [orch_handle_set_eq _ _ _ _ _ hstrip,
          orch_process_nocfg s.config s.appl s.orchVlans name (by rw [hsc]; exact hcfg)]
        rfl
      have h1 := hrun st rfl
      have h2 := hrun (pipelineNotify st vo sw "SET" key).1 (by rw [h1])
      have hA : (pipelineNotify (pipelineNotify st vo sw "SET" key).1 vo sw "SET" key).1 =
          (pipelineNotify st vo sw "SET" key).1 := by
        rw [h2]
      exact ⟨hA, by rw [hA], fun _ => by rw [h2]; exact ⟨rfl, rfl⟩⟩
    | some cfg =>
      cases hid : VlanId.new cfg.vlanid with
      | none =>
        have hrun : ∀ s : PipeState, s.config = st.config →
            pipelineNotify s vo sw "SET" key = (s, ⟨[], [], [], []⟩) := by
          intro s hsc
          unfold pipelineNotify
          rw [orch_handle_set_eq _ _ _ _ _ hstrip,
            orch_process_badid s.config s.appl s.orchVlans name cfg (by rw [hsc]; exact hcfg) hid]
          rfl
        have h1 := hrun st rfl
        have h2 := hrun (pipelineNotify st vo sw "SET" key).1 (by rw [h1])
        have hA : (pipelineNotify (pipelineNotify st vo sw "SET" key).1 vo sw "SET" key).1 =
            (pipelineNotify st vo sw "SET" key).1 := by
          rw [h2]
        exact ⟨hA, by rw [hA], fun _ => by rw [h2]; exact ⟨rfl, rfl⟩⟩
      | some id =>
        have hget1 : dbLookup (dbSet st.appl ("VLAN_TABLE:" ++ name)
            (⟨cfg.vlanid, cfg.description⟩ : VlanEntry)) ("VLAN_TABLE:" ++ name) =
            some ⟨cfg.vlanid, cfg.description⟩ := dbLookup_projected _ _ _
        have hget2 : dbLookup (dbSet (dbSet st.appl ("VLAN_TABLE:" ++ name)
            (⟨cfg.vlanid, cfg.description⟩ : VlanEntry)) ("VLAN_TABLE:" ++ name)
            (⟨cfg.vlanid, cfg.description⟩ : VlanEntry)) ("VLAN_TABLE:" ++ name) =
            some ⟨cfg.vlanid, cfg.description⟩ := dbLookup_projected _ _ _
        cases hc : mapContains st.syncVlans id with
        | true =>
          have hcreate1 := sync_create_tracked
            (dbSet st.appl ("VLAN_TABLE:" ++ name) ⟨cfg.vlanid, cfg.description⟩)
            st.asic st.syncVlans vo sw name ⟨cfg.vlanid, cfg.description⟩ id hget1 hid hc
          have h1 : pipelineNotify st vo sw "SET" key =
              (⟨st.config,
                dbSet st.appl ("VLAN_TABLE:" ++ name) ⟨cfg.vlanid, cfg.description⟩,
                st.asic,
                mapInsert st.orchVlans id ⟨cfg.vlanid, cfg.description⟩,
                st.syncVlans⟩,
               ⟨[⟨"VLAN_TABLE", "SET", "VLAN_TABLE", name, some ⟨cfg.vlanid, cfg.description⟩⟩],
                [], [], []⟩) := by
            rw [pipeline_set_ok_eq st vo sw key name cfg id hstrip hcfg hid]
            simp only [hcreate1]
          have hcreate2 := sync_create_tracked
            (dbSet (dbSet st.appl ("VLAN_TABLE:" ++ name) ⟨cfg.vlanid, cfg.description⟩)
              ("VLAN_TABLE:" ++ name) ⟨cfg.vlanid, cfg.description⟩)
            st.asic st.syncVlans vo sw name ⟨cfg.vlanid, cfg.description⟩ id hget2 hid hc
          have h2 : pipelineNotify (pipelineNotify st vo sw "SET" key).1 vo sw "SET" key =
              (⟨st.config,
                dbSet (dbSet st.appl ("VLAN_TABLE:" ++ name) ⟨cfg.vlanid, cfg.description⟩)
                  ("VLAN_TABLE:" ++ name) ⟨cfg.vlanid, cfg.description⟩,
                st.asic,
                mapInsert (mapInsert st.orchVlans id ⟨cfg.vlanid, cfg.description⟩) id
                  ⟨cfg.vlanid, cfg.description⟩,
                st.syncVlans⟩,
               ⟨[⟨"VLAN_TABLE", "SET", "VLAN_TABLE", name, some ⟨cfg.vlanid, cfg.description⟩⟩],
                [], [], []⟩) := by
            rw [h1]
            rw [pipeline_set_ok_eq
              ⟨st.config, dbSet st.appl ("VLAN_TABLE:" ++ name) ⟨cfg.vlanid, cfg.description⟩,
                st.asic, mapInsert st.orchVlans id ⟨cfg.vlanid, cfg.description⟩, st.syncVlans⟩
              vo sw key name cfg id hstrip hcfg hid]
            simp only [hcreate2]
          have hA : (pipelineNotify (pipelineNotify st vo sw "SET" key).1 vo sw "SET" key).1 =
              (pipelineNotify st vo sw "SET" key).1 := by
            rw [h2, h1, dbSet_dbSet, mapInsert_mapInsert]
          exact ⟨hA, by rw [hA], fun _ => by rw [h2]; exact ⟨rfl, rfl⟩⟩
        | false =>
          cases hvs : (vo.create sw id).fst.is_success with
          | false =>
            have hcreate1 := sync_create_fail
              (dbSet st.appl ("VLAN_TABLE:" ++ name) ⟨cfg.vlanid, cfg.description⟩)
              st.asic st.syncVlans vo sw name ⟨cfg.vlanid, cfg.description⟩ id hget1 hid hc hvs
            have h1 : pipelineNotify st vo sw "SET" key =
                (⟨st.config,
                  dbSet st.appl ("VLAN_TABLE:" ++ name) ⟨cfg.vlanid, cfg.description⟩,
                  st.asic,
                  mapInsert st.orchVlans id ⟨cfg.vlanid, cfg.description⟩,
                  st.syncVlans⟩,
                 ⟨[⟨"VLAN_TABLE", "SET", "VLAN_TABLE", name, some ⟨cfg.vlanid, cfg.description⟩⟩],
                  [(sw, id)], [], []⟩) := by
              rw [pipeline_set_ok_eq st vo sw key name cfg id hstrip hcfg hid]
              simp only [hcreate1]
            have hcreate2 := sync_create_fail
              (dbSet (dbSet st.appl ("VLAN_TABLE:" ++ name) ⟨cfg.vlanid, cfg.description⟩)
                ("VLAN_TABLE:" ++ name) ⟨cfg.vlanid, cfg.description⟩)
              st.asic st.syncVlans vo sw name ⟨cfg.vlanid, cfg.description⟩ id hget2 hid hc hvs
            have h2 : pipelineNotify (pipelineNotify st vo sw "SET" key).1 vo sw "SET" key =
                (⟨st.config,
                  dbSet (dbSet st.appl ("VLAN_TABLE:" ++ name) ⟨cfg.vlanid, cfg.description⟩)
                    ("VLAN_TABLE:" ++ name) ⟨cfg.vlanid, cfg.description⟩,
                  st.asic,
                  mapInsert (mapInsert st.orchVlans id ⟨cfg.vlanid, cfg.description⟩) id
                    ⟨cfg.vlanid, cfg.description⟩,
                  st.syncVlans⟩,
                 ⟨[⟨"VLAN_TABLE", "SET", "VLAN_TABLE", name, some ⟨cfg.vlanid, cfg.description⟩⟩],
                  [(sw, id)], [], []⟩) := by
              rw [h1]
              rw [pipeline_set_ok_eq
                ⟨st.config, dbSet st.appl ("VLAN_TABLE:" ++ name) ⟨cfg.vlanid, cfg.description⟩,
                  st.asic, mapInsert st.orchVlans id ⟨cfg.vlanid, cfg.description⟩, st.syncVlans⟩
                vo sw key name cfg id hstrip hcfg hid]
              simp only [hcreate2]
            have hA : (pipelineNotify (pipelineNotify st vo sw "SET" key).1 vo sw "SET" key).1 =
                (pipelineNotify st vo sw "SET" key).1 := by
              rw [h2, h1, dbSet_dbSet, mapInsert_mapInsert]
            refine ⟨hA, by rw [hA], fun hall => ?_⟩
            have hbad := hall id
            rw [hvs] at hbad
            exact Bool.noConfusion hbad
          | true =>
            have hcreate1 := sync_create_ok
              (dbSet st.appl ("VLAN_TABLE:" ++ name) ⟨cfg.vlanid, cfg.description⟩)
              st.asic st.syncVlans vo sw name ⟨cfg.vlanid, cfg.description⟩ id hget1 hid hc hvs
            have h1 : pipelineNotify st vo sw "SET" key =
                (⟨st.config,
                  dbSet st.appl ("VLAN_TABLE:" ++ name) ⟨cfg.vlanid, cfg.description⟩,
                  dbSet st.asic (asicVlanKey (vo.create sw id).snd)
                    ⟨cfg.vlanid, "0x" ++ natToHex (vo.create sw id).snd⟩,
                  mapInsert st.orchVlans id ⟨cfg.vlanid, cfg.description⟩,
                  mapInsert st.syncVlans id ⟨id, (vo.create sw id).snd⟩⟩,
                 ⟨[⟨"VLAN_TABLE", "SET", "VLAN_TABLE", name, some ⟨cfg.vlanid, cfg.description⟩⟩],
                  [(sw, id)], [], [asicVlanKey (vo.create sw id).snd]⟩) := by
              rw [pipeline_set_ok_eq st vo sw key name cfg id hstrip hcfg hid]
              simp only [hcreate1]
            have hc2 : mapContains (mapInsert st.syncVlans id ⟨id, (vo.create sw id).snd⟩) id =
                true := mapContains_mapInsert_self _ _ _
            have hcreate2 := sync_create_tracked
              (dbSet (dbSet st.appl ("VLAN_TABLE:" ++ name) ⟨cfg.vlanid, cfg.description⟩)
                ("VLAN_TABLE:" ++ name) ⟨cfg.vlanid, cfg.description⟩)
              (dbSet st.asic (asicVlanKey (vo.create sw id).snd)
                ⟨cfg.vlanid, "0x" ++ natToHex (vo.create sw id).snd⟩)
              (mapInsert st.syncVlans id ⟨id, (vo.create sw id).snd⟩)
              vo sw name ⟨cfg.vlanid, cfg.description⟩ id hget2 hid hc2
            have h2 : pipelineNotify (pipelineNotify st vo sw "SET" key).1 vo sw "SET" key =
                (⟨st.config,
                  dbSet (dbSet st.appl ("VLAN_TABLE:" ++ name) ⟨cfg.vlanid, cfg.description⟩)
                    ("VLAN_TABLE:" ++ name) ⟨cfg.vlanid, cfg.description⟩,
                  dbSet st.asic (asicVlanKey (vo.create sw id).snd)
                    ⟨cfg.vlanid, "0x" ++ natToHex (vo.create sw id).snd⟩,
                  mapInsert (mapInsert st.orchVlans id ⟨cfg.vlanid, cfg.description⟩) id
                    ⟨cfg.vlanid, cfg.description⟩,
                  mapInsert st.syncVlans id ⟨id, (vo.create sw id).snd⟩⟩,
                 ⟨[⟨"VLAN_TABLE", "SET", "VLAN_TABLE", name, some ⟨cfg.vlanid, cfg.description⟩⟩],
                  [], [], []⟩) := by
              rw [h1]
              rw [pipeline_set_ok_eq
                ⟨st.config, dbSet st.appl ("VLAN_TABLE:" ++ name) ⟨cfg.vlanid, cfg.description⟩,
                  dbSet st.asic (asicVlanKey (vo.create sw id).snd)
                    ⟨cfg.vlanid, "0x" ++ natToHex (vo.create sw id).snd⟩,
                  mapInsert st.orchVlans id ⟨cfg.vlanid, cfg.description⟩,
                  mapInsert st.syncVlans id ⟨id, (vo.create sw id).snd⟩⟩
                vo sw key name cfg id hstrip hcfg hid]
              simp only [hcreate2]
            have hA : (pipelineNotify (pipelineNotify st vo sw "SET" key).1 vo sw "SET" key).1 =
                (pipelineNotify st vo sw "SET" key).1 := by
              rw [h2, h1, dbSet_dbSet, mapInsert_mapInsert]
            exact ⟨hA, by rw [hA], fun _ => by rw [h2]; exact ⟨rfl, rfl⟩⟩

/-- Claim C6 witness: the amended theorem applied to a concrete state
(config holding Vlan100) with an always-succeeding vendor: the second
application changes nothing and makes no vendor create call. -/
theorem c6_amended_pipeline_set_idempotent_witness :
    ((pipelineNotify
        (pipelineNotify ⟨[("VLAN|Vlan100", ⟨100, none⟩)], [], [], [], []⟩
          ⟨fun _ _ => (SaiStatus.SUCCESS, 77), fun _ => SaiStatus.SUCCESS⟩ 9
          "SET" "VLAN|Vlan100").1
        ⟨fun _ _ => (SaiStatus.SUCCESS, 77), fun _ => SaiStatus.SUCCESS⟩ 9
        "SET" "VLAN|Vlan100").1 =
      (pipelineNotify ⟨[("VLAN|Vlan100", ⟨100, none⟩)], [], [], [], []⟩
        ⟨fun _ _ => (SaiStatus.SUCCESS, 77), fun _ => SaiStatus.SUCCESS⟩ 9
        "SET" "VLAN|Vlan100").1)
    ∧ ((pipelineNotify
        (pipelineNotify ⟨[("VLAN|Vlan100", ⟨100, none⟩)], [], [], [], []⟩
          ⟨fun _ _ => (SaiStatus.SUCCESS, 77), fun _ => SaiStatus.SUCCESS⟩ 9
          "SET" "VLAN|Vlan100").1
        ⟨fun _ _ => (SaiStatus.SUCCESS, 77), fun _ => SaiStatus.SUCCESS⟩ 9
        "SET" "VLAN|Vlan100").2.createCalls = []
      ∧ (pipelineNotify
          (pipelineNotify ⟨[("VLAN|Vlan100", ⟨100, none⟩)], [], [], [], []⟩
            ⟨fun _ _ => (SaiStatus.SUCCESS, 77), fun _ => SaiStatus.SUCCESS⟩ 9
            "SET" "VLAN|Vlan100").1
          ⟨fun _ _ => (SaiStatus.SUCCESS, 77), fun _ => SaiStatus.SUCCESS⟩ 9
          "SET" "VLAN|Vlan100").2.asicSets = []) :=
  ⟨(c6_amended_pipeline_set_idempotent ⟨[("VLAN|Vlan100", ⟨100, none⟩)], [], [], [], []⟩
      ⟨fun _ _ => (SaiStatus.SUCCESS, 77), fun _ => SaiStatus.SUCCESS⟩ 9 "VLAN|Vlan100").1,
   (c6_amended_pipeline_set_idempotent ⟨[("VLAN|Vlan100", ⟨100, none⟩)], [], [], [], []⟩
      ⟨fun _ _ => (SaiStatus.SUCCESS, 77), fun _ => SaiStatus.SUCCESS⟩ 9 "VLAN|Vlan100").2.2
     (fun _ => rfl)⟩
